import Mathlib

/-!
Shallow embedding of the cardigantime security validation subsystem
(src/security/{types,defaults,numeric-guard,string-guard,security-validator,
audit-logger}.ts and the profiles module) together with theorems checking the
specification's claims about it.

Modelling conventions:
* JavaScript strings are lists of characters (`JStr`).
* JavaScript numbers are modelled by `JSNum`: NaN, the two infinities, or a
  finite value carried as a rational.  The code under study performs no float
  arithmetic, only comparisons and decimal parsing, for which the rational
  model is exact.
* TypeScript optional fields are modelled with `Option`; an absent key is
  `none`.  Object spread `{...a, ...b}` keeps a key of `b` when present,
  otherwise the key of `a` (`oMerge`).
* Functions that `throw` are modelled with `Except (List SecurityValidationError)`.
-/

namespace Cardigantime

/-- JavaScript string: a list of characters. -/
abbrev JStr := List Char

/-- JavaScript number: NaN, an infinity, or a finite value (as a rational). -/
inductive JSNum where
  | nan : JSNum
  | posInf : JSNum
  | negInf : JSNum
  | fin : Rat → JSNum
deriving DecidableEq, Repr

/-- Number.isNaN. -/
def JSNum.isNaNB : JSNum → Bool
  | .nan => true
  | _ => false

/-- Number.isFinite. -/
def JSNum.isFiniteB : JSNum → Bool
  | .fin _ => true
  | _ => false

/-- Number.isInteger. -/
def JSNum.isIntegerB : JSNum → Bool
  | .fin q => q.den == 1
  | _ => false

/-- JavaScript `num < b` for a finite bound `b`: NaN compares false. -/
def JSNum.ltB : JSNum → Rat → Bool
  | .nan, _ => false
  | .posInf, _ => false
  | .negInf, _ => true
  | .fin q, b => decide (q < b)

/-- JavaScript `num > b` for a finite bound `b`: NaN compares false. -/
def JSNum.gtB : JSNum → Rat → Bool
  | .nan, _ => false
  | .posInf, _ => true
  | .negInf, _ => false
  | .fin q, b => decide (b < q)

/-- String rendering of a number used in error messages (`String(num)` in the
source; the exact digit sequence of the rendering is not claim-relevant). -/
def jsNumStr : JSNum → String
  | .nan => "NaN"
  | .posInf => "Infinity"
  | .negInf => "-Infinity"
  | .fin q => toString q

/-- JavaScript runtime values, as far as the validators inspect them. -/
inductive JSValue where
  | str : JStr → JSValue
  | num : JSNum → JSValue
  | bool : Bool → JSValue
  | null : JSValue
  | undef : JSValue
  | obj : JSValue
deriving DecidableEq, Repr

/-- The `typeof` operator restricted to the values above. -/
def jsTypeof : JSValue → String
  | .str _ => "string"
  | .num _ => "number"
  | .bool _ => "boolean"
  | .null => "object"
  | .undef => "undefined"
  | .obj => "object"

/-- Whether a value is a number or a string (the input types NumericGuard parses). -/
def JSValue.isNumOrStr : JSValue → Bool
  | .str _ => true
  | .num _ => true
  | _ => false

/-- Whether a value is a string. -/
def JSValue.isStr : JSValue → Bool
  | .str _ => true
  | _ => false

/-! ### Decimal parsing (`parseInt(value, 10)` / `parseFloat(value)`) -/

/-- JavaScript leading-whitespace characters skipped by the numeric parsers
(the common ones; the sources only ever pass command-line/config strings). -/
def jsWhitespace (c : Char) : Bool :=
  c.toNat == 32 || c.toNat == 9 || c.toNat == 10 || c.toNat == 13

/-- Decimal digit test. -/
def isDecDigit (c : Char) : Bool :=
  48 ≤ c.toNat && c.toNat ≤ 57

/-- Value of a run of decimal digits. -/
def natOfDigits (l : List Char) : Nat :=
  l.foldl (fun a c => 10 * a + (c.toNat - 48)) 0

/-- Longest leading run of decimal digits, or `none` when empty. -/
def leadingDigits (l : List Char) : Option (Nat × List Char) :=
  if (l.takeWhile isDecDigit).isEmpty then none
  else some (natOfDigits (l.takeWhile isDecDigit), l.dropWhile isDecDigit)

/-- Sign prefix: returns (negative?, remainder). -/
def splitSign : List Char → Bool × List Char
  | c :: rest =>
    if c.toNat == 45 then (true, rest)
    else if c.toNat == 43 then (false, rest)
    else (false, c :: rest)
  | [] => (false, [])

/-- JavaScript `parseInt(s, 10)`: skip whitespace, optional sign, longest
digit run (NaN when empty), ignoring any trailing characters. -/
def jsParseInt (s : JStr) : JSNum :=
  let s1 := s.dropWhile jsWhitespace
  let sgn := splitSign s1
  match leadingDigits sgn.2 with
  | none => .nan
  | some (n, _) => .fin (if sgn.1 then -(n : Rat) else (n : Rat))

/-- Mantissa of `parseFloat`: digits, optional point and fraction digits.
Returns the value, whether any digit was seen, and the remainder. -/
def parseFloatMantissa (l : List Char) : Rat × Bool × List Char :=
  let ds := l.takeWhile isDecDigit
  let rest := l.dropWhile isDecDigit
  match rest with
  | c :: rest2 =>
    if c.toNat == 46 then
      let fs := rest2.takeWhile isDecDigit
      let rest3 := rest2.dropWhile isDecDigit
      ((natOfDigits ds : Rat) + (natOfDigits fs : Rat) / ((10 : Rat) ^ fs.length),
       !ds.isEmpty || !fs.isEmpty, rest3)
    else ((natOfDigits ds : Rat), !ds.isEmpty, rest)
  | [] => ((natOfDigits ds : Rat), !ds.isEmpty, [])

/-- Optional exponent suffix of `parseFloat` (`e`/`E`, sign, digits). -/
def parseFloatExponent (l : List Char) : Int :=
  match l with
  | c :: rest =>
    if c.toNat == 101 || c.toNat == 69 then
      let sgn := splitSign rest
      match leadingDigits sgn.2 with
      | none => 0
      | some (n, _) => if sgn.1 then -(n : Int) else (n : Int)
    else 0
  | [] => 0

/-- The characters of the literal `Infinity`. -/
def infinityChars : List Char := ['I', 'n', 'f', 'i', 'n', 'i', 't', 'y']

/-- JavaScript `parseFloat(s)`: skip whitespace, optional sign, `Infinity`
literal or decimal mantissa with optional exponent; NaN when no digits. -/
def jsParseFloat (s : JStr) : JSNum :=
  let s1 := s.dropWhile jsWhitespace
  let sgn := splitSign s1
  if sgn.2.take 8 == infinityChars then
    (if sgn.1 then .negInf else .posInf)
  else
    let m := parseFloatMantissa sgn.2
    if m.2.1 then
      let e := parseFloatExponent m.2.2
      .fin ((if sgn.1 then -m.1 else m.1) * (10 : Rat) ^ e)
    else .nan

/-! ### Error and warning records (src/security/types.ts) -/

/-- Origin tag of a validated value. -/
inductive ErrSource where
  | cli | config | default | unknown
deriving DecidableEq, Repr

/-- Stable error codes (SecurityErrorCode in types.ts). -/
inductive SecurityErrorCode where
  | PATH_TRAVERSAL | PATH_TOO_LONG | PATH_INVALID_EXTENSION | PATH_HIDDEN_FILE
  | PATH_SYMLINK_ESCAPE | PATH_OUTSIDE_ALLOWED | PATH_ABSOLUTE_NOT_ALLOWED
  | NUMBER_OUT_OF_RANGE | NUMBER_NAN | NUMBER_INFINITY | NUMBER_MISSING_BOUNDS
  | STRING_TOO_LONG | STRING_NULL_BYTE | STRING_CONTROL_CHAR | STRING_PATTERN_MISMATCH
  | VALIDATION_FAILED
deriving DecidableEq, Repr

/-- Warning codes (SecurityWarningCode in types.ts). -/
inductive SecurityWarningCode where
  | MISSING_PATH_BOUNDS | MISSING_NUMERIC_BOUNDS | PERMISSIVE_PATTERN | DEVELOPMENT_MODE
deriving DecidableEq, Repr

/-- SecurityValidationError (types.ts). -/
structure SecurityValidationError where
  field : String
  message : String
  code : SecurityErrorCode
  value : Option String := none
  source : ErrSource
deriving DecidableEq, Repr

/-- SecurityValidationWarning (types.ts). -/
structure SecurityValidationWarning where
  field : String
  message : String
  code : SecurityWarningCode
deriving DecidableEq, Repr

/-- Number of errors a validation outcome carries (0 on success). -/
def errCount {α : Type} : Except (List SecurityValidationError) α → Nat
  | .ok _ => 0
  | .error errs => errs.length

/-- Whether a validation outcome succeeded. -/
def isOkE {ε α : Type} : Except ε α → Bool
  | .ok _ => true
  | .error _ => false

/-! ### NumericGuard (src/security/numeric-guard.ts) -/

/-- NumericSecurityOptions (types.ts): every field optional. -/
structure NumericSecurityOptions where
  requireBounds : Option Bool := none
  defaultMin : Option Rat := none
  defaultMax : Option Rat := none
  allowNaN : Option Bool := none
  allowInfinity : Option Bool := none
deriving DecidableEq, Repr

/-- Number.MIN_SAFE_INTEGER. -/
def minSafeInteger : Rat := -9007199254740991

/-- Number.MAX_SAFE_INTEGER. -/
def maxSafeInteger : Rat := 9007199254740991

/-- A NumericGuard after its constructor has layered the caller's options over
the defaults `{requireBounds: true, allowNaN: false, allowInfinity: false,
defaultMin: MIN_SAFE_INTEGER, defaultMax: MAX_SAFE_INTEGER}`; every option is
populated from then on. -/
structure NumericGuard where
  requireBounds : Bool
  allowNaN : Bool
  allowInfinity : Bool
  defaultMin : Rat
  defaultMax : Rat
deriving DecidableEq, Repr

/-- The NumericGuard constructor (`new NumericGuard(options)`). -/
def NumericGuard.create (options : NumericSecurityOptions) : NumericGuard where
  requireBounds := options.requireBounds.getD true
  allowNaN := options.allowNaN.getD false
  allowInfinity := options.allowInfinity.getD false
  defaultMin := options.defaultMin.getD minSafeInteger
  defaultMax := options.defaultMax.getD maxSafeInteger

/-- The module-level default instance (`getNumericGuard()`). -/
def defaultNumericGuard : NumericGuard := NumericGuard.create {}

/-- Bounds argument of NumericGuard.validate; the optional `integer` flag is
false when absent (undefined is falsy). -/
structure NumericBounds where
  min : Rat
  max : Rat
  integer : Bool := false
deriving DecidableEq, Repr

/-- Error pushed by the NaN check of NumericGuard.validate. -/
def NumericGuard.checkNaN (g : NumericGuard) (num : JSNum) (fieldName : String) :
    List SecurityValidationError :=
  if num.isNaNB && !g.allowNaN then
    [{ field := fieldName, message := fieldName ++ " is NaN (not a number)",
       code := .NUMBER_NAN, source := .unknown }]
  else []

/-- Error pushed by the infinity check of NumericGuard.validate. -/
def NumericGuard.checkInfinity (g : NumericGuard) (num : JSNum) (fieldName : String) :
    List SecurityValidationError :=
  if !num.isFiniteB && !g.allowInfinity then
    [{ field := fieldName, message := fieldName ++ " is infinite",
       code := .NUMBER_INFINITY, source := .unknown }]
  else []

/-- Error pushed by the integer-constraint check of NumericGuard.validate. -/
def NumericGuard.checkInteger (bounds : NumericBounds) (num : JSNum) (fieldName : String) :
    List SecurityValidationError :=
  if bounds.integer && !num.isIntegerB && num.isFiniteB then
    [{ field := fieldName, message := fieldName ++ " must be an integer",
       code := .VALIDATION_FAILED, source := .unknown }]
  else []

/-- Error pushed by the lower-bound check of NumericGuard.validate. -/
def NumericGuard.checkMin (bounds : NumericBounds) (num : JSNum) (fieldName : String) :
    List SecurityValidationError :=
  if num.ltB bounds.min then
    [{ field := fieldName,
       message := fieldName ++ " must be at least " ++ toString bounds.min ++
         ", received " ++ jsNumStr num,
       code := .NUMBER_OUT_OF_RANGE, value := some (jsNumStr num), source := .unknown }]
  else []

/-- Error pushed by the upper-bound check of NumericGuard.validate. -/
def NumericGuard.checkMax (bounds : NumericBounds) (num : JSNum) (fieldName : String) :
    List SecurityValidationError :=
  if num.gtB bounds.max then
    [{ field := fieldName,
       message := fieldName ++ " must be at most " ++ toString bounds.max ++
         ", received " ++ jsNumStr num,
       code := .NUMBER_OUT_OF_RANGE, value := some (jsNumStr num), source := .unknown }]
  else []

/-- The `errors` array of NumericGuard.validate after the input has been
parsed to a number: all five checks run unconditionally and accumulate. -/
def NumericGuard.numErrors (g : NumericGuard) (num : JSNum) (bounds : NumericBounds)
    (fieldName : String) : List SecurityValidationError :=
  g.checkNaN num fieldName ++ g.checkInfinity num fieldName ++
  NumericGuard.checkInteger bounds num fieldName ++
  NumericGuard.checkMin bounds num fieldName ++
  NumericGuard.checkMax bounds num fieldName

/-- Body of NumericGuard.validate after parsing: the guard throws the whole
accumulated list at the end, or returns the number unchanged. -/
def NumericGuard.validateNum (g : NumericGuard) (num : JSNum) (bounds : NumericBounds)
    (fieldName : String) : Except (List SecurityValidationError) JSNum :=
  if (g.numErrors num bounds fieldName).isEmpty then .ok num
  else .error (g.numErrors num bounds fieldName)

/-- NumericGuard.validate: strings are parsed with parseInt when
`bounds.integer` is set, with parseFloat otherwise; non-number non-string
inputs throw a single VALIDATION_FAILED error immediately. -/
def NumericGuard.validate (g : NumericGuard) (value : JSValue) (bounds : NumericBounds)
    (fieldName : String) : Except (List SecurityValidationError) JSNum :=
  match value with
  | .str s =>
    g.validateNum (if bounds.integer then jsParseInt s else jsParseFloat s) bounds fieldName
  | .num x => g.validateNum x bounds fieldName
  | v =>
    .error [{ field := fieldName,
              message := fieldName ++ " must be a number, received " ++ jsTypeof v,
              code := .VALIDATION_FAILED, source := .unknown }]

/-- Names of the SAFE_RANGES presets. -/
inductive SafeRangeName where
  | port | timeout | retries | percentage | concurrency
  | temperature | maxTokens | fileSize | lineCount
deriving DecidableEq, Repr

/-- SAFE_RANGES (numeric-guard.ts lines 6-25): the (min, max) of each preset. -/
def SAFE_RANGES : SafeRangeName → Rat × Rat
  | .port => (1, 65535)
  | .timeout => (0, 300000)
  | .retries => (0, 10)
  | .percentage => (0, 100)
  | .concurrency => (1, 100)
  | .temperature => (0, 2)
  | .maxTokens => (1, 1000000)
  | .fileSize => (0, 100 * 1024 * 1024)
  | .lineCount => (0, 1000000)

/-- String form of a preset name (used as the fallback field name). -/
def safeRangeNameStr : SafeRangeName → String
  | .port => "port"
  | .timeout => "timeout"
  | .retries => "retries"
  | .percentage => "percentage"
  | .concurrency => "concurrency"
  | .temperature => "temperature"
  | .maxTokens => "maxTokens"
  | .fileSize => "fileSize"
  | .lineCount => "lineCount"

/-- The fixed list `['port', 'retries', 'concurrency', 'maxTokens', 'lineCount']`
whose members get `integer: true` in validateRange. -/
def integerRangeNames : List SafeRangeName :=
  [.port, .retries, .concurrency, .maxTokens, .lineCount]

/-- NumericGuard.validateRange: look up the preset and validate with its
bounds, adding the integer flag exactly for the names in `integerRangeNames`. -/
def NumericGuard.validateRange (g : NumericGuard) (value : JSValue)
    (rangeName : SafeRangeName) (fieldName : Option String) :
    Except (List SecurityValidationError) JSNum :=
  let range := SAFE_RANGES rangeName
  let name := fieldName.getD (safeRangeNameStr rangeName)
  let isInteger := decide (rangeName ∈ integerRangeNames)
  g.validate value { min := range.1, max := range.2, integer := isInteger } name

/-! ### StringGuard (src/security/string-guard.ts) -/

/-- Null byte test (DANGEROUS_PATTERNS.nullByte). -/
def isNullByte (c : Char) : Bool := c.toNat == 0

/-- Control characters except common whitespace
(DANGEROUS_PATTERNS.controlChars, the class 00-08, 0b, 0c, 0e-1f, 7f). -/
def isControlCharDanger (c : Char) : Bool :=
  c.toNat ≤ 8 || c.toNat == 11 || c.toNat == 12 ||
  (14 ≤ c.toNat && c.toNat ≤ 31) || c.toNat == 127

/-- Shell metacharacters (DANGEROUS_PATTERNS.shellMeta): the characters
semicolon, ampersand, pipe, backquote, dollar, parens, braces, square
brackets, angle brackets, bang, hash, star, question mark, by code point. -/
def isShellMetaChar (c : Char) : Bool :=
  [59, 38, 124, 96, 36, 40, 41, 123, 125, 91, 93, 60, 62, 33, 35, 42, 63].contains c.toNat

/-- DANGEROUS_PATTERNS.ansiEscape: the string contains ESC (1b) immediately
followed by an opening square bracket (5b). -/
def containsAnsiEscape : JStr → Bool
  | c1 :: c2 :: rest =>
    (c1.toNat == 27 && c2.toNat == 91) || containsAnsiEscape (c2 :: rest)
  | _ => false

/-- JavaScript String.prototype.trim. -/
def jsTrim (s : JStr) : JStr :=
  ((s.dropWhile jsWhitespace).reverse.dropWhile jsWhitespace).reverse

/-- StringSecurityOptions (types.ts): every field optional.  The unused
`defaultPattern` field (referenced nowhere in the validators) is omitted. -/
structure StringSecurityOptions where
  maxLength : Option Nat := none
  allowNullBytes : Option Bool := none
  allowControlChars : Option Bool := none
deriving DecidableEq, Repr

/-- A StringGuard after its constructor has layered the caller's options over
`{maxLength: 1000, allowNullBytes: false, allowControlChars: false}`. -/
structure StringGuard where
  maxLength : Nat
  allowNullBytes : Bool
  allowControlChars : Bool
deriving DecidableEq, Repr

/-- The StringGuard constructor (`new StringGuard(options)`). -/
def StringGuard.create (options : StringSecurityOptions) : StringGuard where
  maxLength := options.maxLength.getD 1000
  allowNullBytes := options.allowNullBytes.getD false
  allowControlChars := options.allowControlChars.getD false

/-- The module-level default instance (`getStringGuard()`). -/
def defaultStringGuard : StringGuard := StringGuard.create {}

/-- Constraints argument of StringGuard.validate.  A regex is modelled as a
predicate on strings; the optional boolean flags are false when absent. -/
structure StringConstraints where
  minLength : Option Nat := none
  maxLength : Option Nat := none
  pattern : Option (JStr → Bool) := none
  patternName : Option String := none
  allowedValues : Option (List JStr) := none
  blockShellMeta : Bool := false
  trim : Bool := false

/-- Error pushed by the null-byte check of StringGuard.validate. -/
def StringGuard.checkNullBytes (g : StringGuard) (str : JStr) (fieldName : String) :
    List SecurityValidationError :=
  if !g.allowNullBytes && str.any isNullByte then
    [{ field := fieldName, message := fieldName ++ " contains null bytes",
       code := .STRING_NULL_BYTE, source := .unknown }]
  else []

/-- Error pushed by the control-character check of StringGuard.validate. -/
def StringGuard.checkControlChars (g : StringGuard) (str : JStr) (fieldName : String) :
    List SecurityValidationError :=
  if !g.allowControlChars && str.any isControlCharDanger then
    [{ field := fieldName, message := fieldName ++ " contains control characters",
       code := .STRING_CONTROL_CHAR, source := .unknown }]
  else []

/-- Error pushed by the ANSI-escape check of StringGuard.validate (always
performed, independent of the control-character policy). -/
def StringGuard.checkAnsi (str : JStr) (fieldName : String) :
    List SecurityValidationError :=
  if containsAnsiEscape str then
    [{ field := fieldName, message := fieldName ++ " contains ANSI escape sequences",
       code := .STRING_CONTROL_CHAR, source := .unknown }]
  else []

/-- Error pushed by the shell-metacharacter check of StringGuard.validate
(opt-in via `blockShellMeta`). -/
def StringGuard.checkShellMeta (cons : StringConstraints) (str : JStr) (fieldName : String) :
    List SecurityValidationError :=
  if cons.blockShellMeta && str.any isShellMetaChar then
    [{ field := fieldName, message := fieldName ++ " contains shell metacharacters",
       code := .VALIDATION_FAILED, source := .unknown }]
  else []

/-- Error pushed by the maximum-length check of StringGuard.validate; the
limit falls back to the guard's policy maxLength. -/
def StringGuard.checkMaxLength (g : StringGuard) (cons : StringConstraints) (str : JStr)
    (fieldName : String) : List SecurityValidationError :=
  if str.length > cons.maxLength.getD g.maxLength then
    [{ field := fieldName,
       message := fieldName ++ " exceeds maximum length of " ++
         toString (cons.maxLength.getD g.maxLength) ++ " characters",
       code := .STRING_TOO_LONG, source := .unknown }]
  else []

/-- Error pushed by the minimum-length check of StringGuard.validate. -/
def StringGuard.checkMinLength (cons : StringConstraints) (str : JStr) (fieldName : String) :
    List SecurityValidationError :=
  match cons.minLength with
  | some m =>
    if str.length < m then
      [{ field := fieldName,
         message := fieldName ++ " must be at least " ++ toString m ++ " characters",
         code := .VALIDATION_FAILED, source := .unknown }]
    else []
  | none => []

/-- Error pushed by the pattern check of StringGuard.validate. -/
def StringGuard.checkPattern (cons : StringConstraints) (str : JStr) (fieldName : String) :
    List SecurityValidationError :=
  match cons.pattern with
  | some p =>
    if !p str then
      [{ field := fieldName,
         message := fieldName ++ " does not match " ++
           cons.patternName.getD "required format",
         code := .STRING_PATTERN_MISMATCH, source := .unknown }]
    else []
  | none => []

/-- Error pushed by the allowed-values check of StringGuard.validate. -/
def StringGuard.checkAllowedValues (cons : StringConstraints) (str : JStr)
    (fieldName : String) : List SecurityValidationError :=
  match cons.allowedValues with
  | some vs =>
    if !vs.contains str then
      [{ field := fieldName,
         message := fieldName ++ " must be one of the allowed values",
         code := .VALIDATION_FAILED, source := .unknown }]
    else []
  | none => []

/-- The `errors` array of StringGuard.validate on the (possibly trimmed)
string: all eight constraint checks run unconditionally and accumulate. -/
def StringGuard.strErrors (g : StringGuard) (cons : StringConstraints) (str : JStr)
    (fieldName : String) : List SecurityValidationError :=
  g.checkNullBytes str fieldName ++
  g.checkControlChars str fieldName ++
  StringGuard.checkAnsi str fieldName ++
  StringGuard.checkShellMeta cons str fieldName ++
  g.checkMaxLength cons str fieldName ++
  StringGuard.checkMinLength cons str fieldName ++
  StringGuard.checkPattern cons str fieldName ++
  StringGuard.checkAllowedValues cons str fieldName

/-- StringGuard.validate: type check, optional trim, then the accumulated
checks; the guard throws the whole list, or returns the (possibly trimmed)
string. -/
def StringGuard.validate (g : StringGuard) (value : JSValue) (cons : StringConstraints)
    (fieldName : String) : Except (List SecurityValidationError) JStr :=
  match value with
  | .str s0 =>
    let str := if cons.trim then jsTrim s0 else s0
    if (StringGuard.strErrors g cons str fieldName).isEmpty then .ok str
    else .error (StringGuard.strErrors g cons str fieldName)
  | v =>
    .error [{ field := fieldName,
              message := fieldName ++ " must be a string, received " ++ jsTypeof v,
              code := .VALIDATION_FAILED, source := .unknown }]

/-! StringGuard.sanitize: `value.substring(0, maxLength)` then globally remove
the class 00-1f, 7f, then globally remove matches of the regex
ESC bracket [0-9;]* m. -/

/-- Characters removed by the first replace of sanitize (00-1f and 7f). -/
def isControlOrDel (c : Char) : Bool := c.toNat ≤ 31 || c.toNat == 127

/-- Parameter characters of an ANSI color sequence: decimal digits or
semicolon (the class [0-9;]). -/
def isAnsiParamChar (c : Char) : Bool := isDecDigit c || c.toNat == 59

/-- After an ESC, try to match an opening bracket, a run of parameter
characters and a final letter m; on success return the tail after the match. -/
def matchAnsiTail : JStr → Option JStr
  | [] => none
  | b :: rest2 =>
    if b.toNat == 91 then
      match rest2.dropWhile isAnsiParamChar with
      | m :: tail => if m.toNat == 109 then some tail else none
      | [] => none
    else none

/-- dropWhile never lengthens a list. -/
theorem lengthDropWhileLe {α : Type} (p : α → Bool) (l : List α) :
    (l.dropWhile p).length ≤ l.length := by
  induction l with
  | nil => simp [List.dropWhile]
  | cons a rest ih =>
    by_cases h : p a = true
    · simp only [List.dropWhile, h]
      exact Nat.le_succ_of_le ih
    · simp only [List.dropWhile, Bool.not_eq_true] at *
      simp [h]

/-- A successful ANSI-tail match strictly shrinks the list. -/
theorem matchAnsiTail_length {l tail : JStr} (h : matchAnsiTail l = some tail) :
    tail.length < l.length := by
  match l with
  | [] => simp [matchAnsiTail] at h
  | b :: rest2 =>
    simp only [matchAnsiTail] at h
    by_cases hb : (b.toNat == 91) = true
    · simp only [hb, if_true] at h
      match hdrop : rest2.dropWhile isAnsiParamChar with
      | [] => rw [hdrop] at h; simp at h
      | m :: tail2 =>
        rw [hdrop] at h
        by_cases hm : (m.toNat == 109) = true
        · simp only [hm, if_true, Option.some.injEq] at h
          have h1 : (m :: tail2).length ≤ rest2.length := by
            rw [← hdrop]; exact lengthDropWhileLe _ _
          subst h
          simp only [List.length_cons] at h1 ⊢
          omega
        · simp [hm] at h
    · simp [hb] at h

/-- Global replacement of the ANSI color regex by the empty string: scan for
ESC, and when ESC starts a full match skip past it, otherwise keep the
character and continue. -/
def ansiColorStrip : JStr → JStr
  | [] => []
  | c :: rest =>
    if c.toNat == 27 then
      match h : matchAnsiTail rest with
      | some tail => ansiColorStrip tail
      | none => c :: ansiColorStrip rest
    else c :: ansiColorStrip rest
termination_by l => l.length
decreasing_by
  · simp only [List.length_cons]
    exact Nat.lt_succ_of_lt (matchAnsiTail_length h)
  · simp
  · simp

/-- StringGuard.sanitize (string-guard.ts lines 269-276). -/
def StringGuard.sanitize (value : JStr) (maxLength : Nat) : JStr :=
  ansiColorStrip ((value.take maxLength).filter (fun c => !isControlOrDel c))

/-! ### Security configuration (src/security/types.ts, defaults.ts) -/

/-- SecurityProfile (types.ts). -/
inductive SecurityProfile where
  | development | production | custom
deriving DecidableEq, Repr

/-- PathSecurityOptions (types.ts): every field optional. -/
structure PathSecurityOptions where
  allowedBaseDirs : Option (List String) := none
  maxPathLength : Option Nat := none
  allowedExtensions : Option (List String) := none
  allowHiddenFiles : Option Bool := none
  validateSymlinks : Option Bool := none
  allowAbsolutePaths : Option Bool := none
deriving DecidableEq, Repr

/-- SecurityValidationConfig (types.ts): profile, the three policies and the
two top-level flags.  The policy objects themselves have optional fields. -/
structure SecurityValidationConfig where
  profile : SecurityProfile
  paths : PathSecurityOptions
  numbers : NumericSecurityOptions
  strings : StringSecurityOptions
  failOnError : Bool
  auditLogging : Bool
deriving DecidableEq, Repr

/-- Partial SecurityValidationConfig, the user-override argument of
mergeSecurityConfig: every top-level key optional. -/
structure SecurityConfigPatch where
  profile : Option SecurityProfile := none
  paths : Option PathSecurityOptions := none
  numbers : Option NumericSecurityOptions := none
  strings : Option StringSecurityOptions := none
  failOnError : Option Bool := none
  auditLogging : Option Bool := none
deriving DecidableEq, Repr

/-- DEVELOPMENT_SECURITY_CONFIG (defaults.ts lines 6-30): every policy field
is given explicitly. -/
def DEVELOPMENT_SECURITY_CONFIG : SecurityValidationConfig where
  profile := .development
  paths :=
    { allowedBaseDirs := some []
      maxPathLength := some 1000
      allowedExtensions := some []
      allowHiddenFiles := some true
      validateSymlinks := some false
      allowAbsolutePaths := some true }
  numbers :=
    { requireBounds := some false
      defaultMin := some minSafeInteger
      defaultMax := some maxSafeInteger
      allowNaN := some false
      allowInfinity := some false }
  strings :=
    { maxLength := some 10000
      allowNullBytes := some false
      allowControlChars := some false }
  failOnError := false
  auditLogging := true

/-- PRODUCTION_SECURITY_CONFIG (defaults.ts lines 35-55): note that the
source object literal gives no `allowedBaseDirs`, no `allowedExtensions`, no
`defaultMin` and no `defaultMax` (the interface fields are optional). -/
def PRODUCTION_SECURITY_CONFIG : SecurityValidationConfig where
  profile := .production
  paths :=
    { maxPathLength := some 500
      allowHiddenFiles := some false
      validateSymlinks := some true
      allowAbsolutePaths := some false }
  numbers :=
    { requireBounds := some true
      allowNaN := some false
      allowInfinity := some false }
  strings :=
    { maxLength := some 5000
      allowNullBytes := some false
      allowControlChars := some false }
  failOnError := true
  auditLogging := true

/-- getSecurityConfig: the source ternary tests for 'production' and falls
back to the development config for anything else. -/
def getSecurityConfig (profile : SecurityProfile) : SecurityValidationConfig :=
  if profile = .production then PRODUCTION_SECURITY_CONFIG else DEVELOPMENT_SECURITY_CONFIG

/-- Key-wise object spread `{...b, ...u}` on one optional key: the user's key
wins when present. -/
def oMerge {α : Type} (b u : Option α) : Option α :=
  match u with
  | some v => some v
  | none => b

/-- Spread-merge of two path policies (`{...base.paths, ...user.paths}`). -/
def mergePathOptions (b u : PathSecurityOptions) : PathSecurityOptions where
  allowedBaseDirs := oMerge b.allowedBaseDirs u.allowedBaseDirs
  maxPathLength := oMerge b.maxPathLength u.maxPathLength
  allowedExtensions := oMerge b.allowedExtensions u.allowedExtensions
  allowHiddenFiles := oMerge b.allowHiddenFiles u.allowHiddenFiles
  validateSymlinks := oMerge b.validateSymlinks u.validateSymlinks
  allowAbsolutePaths := oMerge b.allowAbsolutePaths u.allowAbsolutePaths

/-- Spread-merge of two numeric policies. -/
def mergeNumericOptions (b u : NumericSecurityOptions) : NumericSecurityOptions where
  requireBounds := oMerge b.requireBounds u.requireBounds
  defaultMin := oMerge b.defaultMin u.defaultMin
  defaultMax := oMerge b.defaultMax u.defaultMax
  allowNaN := oMerge b.allowNaN u.allowNaN
  allowInfinity := oMerge b.allowInfinity u.allowInfinity

/-- Spread-merge of two string policies. -/
def mergeStringOptions (b u : StringSecurityOptions) : StringSecurityOptions where
  maxLength := oMerge b.maxLength u.maxLength
  allowNullBytes := oMerge b.allowNullBytes u.allowNullBytes
  allowControlChars := oMerge b.allowControlChars u.allowControlChars

/-- mergeSecurityConfig (defaults.ts lines 69-81): spread the user override
over the profile base, then deep-merge the three policy objects (an absent
user policy object spreads as nothing). -/
def mergeSecurityConfig (userConfig : SecurityConfigPatch) (profile : SecurityProfile) :
    SecurityValidationConfig :=
  let baseConfig := getSecurityConfig profile
  { profile := (userConfig.profile).getD baseConfig.profile
    failOnError := (userConfig.failOnError).getD baseConfig.failOnError
    auditLogging := (userConfig.auditLogging).getD baseConfig.auditLogging
    paths := mergePathOptions baseConfig.paths ((userConfig.paths).getD {})
    numbers := mergeNumericOptions baseConfig.numbers ((userConfig.numbers).getD {})
    strings := mergeStringOptions baseConfig.strings ((userConfig.strings).getD {}) }

/-! ### SecurityValidator (src/security/security-validator.ts) -/

/-- The config computed in the SecurityValidator constructor:
`mergeSecurityConfig(config, config.profile || 'development')` (a 'custom'
profile falls through getSecurityConfig's ternary to the development base). -/
def SecurityValidator.mkConfig (config : SecurityConfigPatch) : SecurityValidationConfig :=
  mergeSecurityConfig config ((config.profile).getD .development)

/-- SecurityValidationResult (types.ts). -/
structure SecurityValidationResult where
  valid : Bool
  errors : List SecurityValidationError
  warnings : List SecurityValidationWarning
  source : ErrSource

/-- AggregatedValidationResult (security-validator.ts): the `bySource` record
is modelled by its two optional entries. -/
structure AggregatedValidationResult where
  valid : Bool
  errors : List SecurityValidationError
  warnings : List SecurityValidationWarning
  bySourceCli : Option SecurityValidationResult
  bySourceConfig : Option SecurityValidationResult

/-- A JSON-like value tree, the shape of a merged configuration object. -/
inductive JTree where
  | str : JStr → JTree
  | num : JSNum → JTree
  | bool : Bool → JTree
  | null : JTree
  | arr : List JTree → JTree
  | obj : List (String × JTree) → JTree

/-- The `checkPath` callback of checkSuspiciousPatterns: for a string value,
warn when it contains a tilde (7e) and when it contains a dollar sign (24). -/
def checkPathWarnings (value : JTree) (path : String) : List SecurityValidationWarning :=
  match value with
  | .str s =>
    (if s.any (fun c => c.toNat == 126) then
      [{ field := path,
         message := "Path contains home directory shortcut which may expand unexpectedly",
         code := .PERMISSIVE_PATTERN }]
     else []) ++
    (if s.any (fun c => c.toNat == 36) then
      [{ field := path,
         message := "Path contains environment variable reference which may be user-controlled",
         code := .PERMISSIVE_PATTERN }]
     else [])
  | _ => []

/-- walkObject (security-validator.ts lines 260-273) specialised to the
suspicious-pattern callback: visit each entry in order, collect its warnings,
and recurse into plain objects only (not arrays, not null). -/
def walkSuspicious (entries : List (String × JTree)) (pre : String) :
    List SecurityValidationWarning :=
  match entries with
  | [] => []
  | (key, value) :: rest =>
    let path := if pre = "" then key else pre ++ "." ++ key
    checkPathWarnings value path ++
    (match value with
     | .obj sub => walkSuspicious sub path
     | _ => []) ++
    walkSuspicious rest pre

/-- checkSuspiciousPatterns: walk the merged tree from the empty path. -/
def checkSuspiciousPatterns (config : List (String × JTree)) :
    List SecurityValidationWarning :=
  walkSuspicious config ""

/-- validateCrossSources (security-validator.ts lines 200-223): the CLI/config
overlap loop only emits debug logging; no error is ever pushed, and the
suspicious-pattern warnings are produced only in the production profile. -/
def validateCrossSources (cfg : SecurityValidationConfig)
    (merged : List (String × JTree)) :
    List SecurityValidationError × List SecurityValidationWarning :=
  ([], if cfg.profile = .production then checkSuspiciousPatterns merged else [])

/-- Modelled from the spec: CLIValidator.validateArgs and
ConfigValidator.validateConfig live in cli-validator.ts and
config-validator.ts, which are not among the provided sources; per the spec
they collect per-field guard results into one ValidationResult whose valid
flag follows `valid = errors.isEmpty || not failOnError`. -/
def mkValidationResult (failOnError : Bool) (errors : List SecurityValidationError)
    (warnings : List SecurityValidationWarning) (source : ErrSource) :
    SecurityValidationResult where
  valid := errors.isEmpty || !failOnError
  errors := errors
  warnings := warnings
  source := source

/-- SecurityValidator.validateMerged (security-validator.ts lines 114-150),
as a function of the two sub-validator results (their sources are absent, see
mkValidationResult): union the errors and warnings, add the cross-source
results, and compute `valid = allErrors.length == 0 || !failOnError`. -/
def SecurityValidator.validateMerged (cfg : SecurityValidationConfig)
    (cliResult configResult : SecurityValidationResult)
    (merged : List (String × JTree)) : AggregatedValidationResult :=
  let cross := validateCrossSources cfg merged
  let allErrors := cliResult.errors ++ configResult.errors ++ cross.1
  let allWarnings := cliResult.warnings ++ configResult.warnings ++ cross.2
  { valid := allErrors.isEmpty || !cfg.failOnError
    errors := allErrors
    warnings := allWarnings
    bySourceCli := some cliResult
    bySourceConfig := some configResult }

/-- The `type` discriminator of SecurityValidator.validateValue. -/
inductive ValueType where
  | path | number | string
deriving DecidableEq, Repr

/-- Options argument of SecurityValidator.validateValue. -/
structure ValidateValueOptions where
  fieldName : Option String := none
  bounds : Option NumericBounds := none
  pattern : Option (JStr → Bool) := none

/-- SecurityValidator.validateValue (security-validator.ts lines 155-181).
The PathGuard (path-guard.ts is not among the provided sources) is passed in
as a function; note that it is only consulted when the value is a string, a
number is only validated when bounds were supplied, and in the remaining
cases the method returns without reporting anything. -/
def SecurityValidator.validateValue
    (pathGuardValidate : JStr → String → Except (List SecurityValidationError) JStr)
    (numericGuard : NumericGuard) (stringGuard : StringGuard)
    (value : JSValue) (type : ValueType) (options : ValidateValueOptions) :
    Except (List SecurityValidationError) Unit :=
  let fieldName := (options.fieldName).getD "value"
  match type with
  | .path =>
    match value with
    | .str s => (pathGuardValidate s fieldName).map (fun _ => ())
    | _ => .ok ()
  | .number =>
    match options.bounds with
    | some b => (numericGuard.validate value b fieldName).map (fun _ => ())
    | none => .ok ()
  | .string =>
    (stringGuard.validate value { pattern := options.pattern } fieldName).map (fun _ => ())

/-! ### Profiles module (SECURITY_PROFILES, SecurityProfileBuilder, ProfileManager)

The module-level SECURITY_PROFILES table maps development and custom to the
very DEVELOPMENT_SECURITY_CONFIG object and production to
PRODUCTION_SECURITY_CONFIG.  Because the profile builder copies its base
preset only shallowly, the nested `paths` objects are shared mutable state;
they are modelled by a `PathsStore` holding the current contents of the two
path-policy objects, and a `PathsRef` saying which object a config's `paths`
key points at. -/

/-- The current contents of the two module-level path-policy objects. -/
structure PathsStore where
  devPaths : PathSecurityOptions
  prodPaths : PathSecurityOptions
deriving DecidableEq, Repr

/-- The store at module load time. -/
def initialPathsStore : PathsStore where
  devPaths := DEVELOPMENT_SECURITY_CONFIG.paths
  prodPaths := PRODUCTION_SECURITY_CONFIG.paths

/-- Base profiles accepted by the builder constructor. -/
inductive BaseProfile where
  | development | production
deriving DecidableEq, Repr

/-- A reference to a path-policy object: one of the two shared module-level
objects, or a privately allocated one. -/
inductive PathsRef where
  | globalRef : BaseProfile → PathsRef
  | fresh : PathSecurityOptions → PathsRef
deriving DecidableEq, Repr

/-- Read a path-policy object through a reference. -/
def PathsStore.deref (st : PathsStore) : PathsRef → PathSecurityOptions
  | .globalRef .development => st.devPaths
  | .globalRef .production => st.prodPaths
  | .fresh o => o

/-- Mutate the object a reference points at; a write through a global
reference updates the store. -/
def writePaths (st : PathsStore) (r : PathsRef) (f : PathSecurityOptions → PathSecurityOptions) :
    PathsRef × PathsStore :=
  match r with
  | .globalRef .development => (r, { st with devPaths := f st.devPaths })
  | .globalRef .production => (r, { st with prodPaths := f st.prodPaths })
  | .fresh o => (.fresh (f o), st)

/-- The BaseProfile as a SecurityProfile. -/
def BaseProfile.toProfile : BaseProfile → SecurityProfile
  | .development => .development
  | .production => .production

/-- The shared configs of SECURITY_PROFILES other than the paths object
(scalar fields are copied by value by the spreads). -/
def profileBaseConfig : BaseProfile → SecurityValidationConfig
  | .development => DEVELOPMENT_SECURITY_CONFIG
  | .production => PRODUCTION_SECURITY_CONFIG

/-- getProfileConfig under a store: `{...SECURITY_PROFILES[profile]}` is a
shallow copy, so its `paths` key still denotes the shared object
(SECURITY_PROFILES.custom is the development config object itself). -/
def getProfileConfigAt (st : PathsStore) (profile : SecurityProfile) : SecurityValidationConfig :=
  match profile with
  | .production => { PRODUCTION_SECURITY_CONFIG with paths := st.prodPaths }
  | .development => { DEVELOPMENT_SECURITY_CONFIG with paths := st.devPaths }
  | .custom => { DEVELOPMENT_SECURITY_CONFIG with paths := st.devPaths }

/-- getProfileConfig with the module-level objects in their initial state. -/
def getProfileConfig (profile : SecurityProfile) : SecurityValidationConfig :=
  getProfileConfigAt initialPathsStore profile

/-- SecurityProfileBuilder: its config is a shallow copy of the base preset
(`{...SECURITY_PROFILES[baseProfile], profile: 'custom'}`), so the `paths`
key aliases the module-level object of the base profile.  The numbers and
strings objects are aliased the same way in the source; they are modelled by
value here because no proved property touches them. -/
structure SecurityProfileBuilder where
  profile : SecurityProfile
  pathsRef : PathsRef
  numbers : NumericSecurityOptions
  strings : StringSecurityOptions
  failOnError : Bool
  auditLogging : Bool
deriving DecidableEq, Repr

/-- The builder constructor. -/
def SecurityProfileBuilder.create (baseProfile : BaseProfile) : SecurityProfileBuilder where
  profile := .custom
  pathsRef := .globalRef baseProfile
  numbers := (profileBaseConfig baseProfile).numbers
  strings := (profileBaseConfig baseProfile).strings
  failOnError := (profileBaseConfig baseProfile).failOnError
  auditLogging := (profileBaseConfig baseProfile).auditLogging

/-- SecurityProfileBuilder.withPathSecurity: `this.config.paths =
{...this.config.paths, ...options}` allocates a new object, replacing the
reference without touching the shared object. -/
def SecurityProfileBuilder.withPathSecurity (b : SecurityProfileBuilder) (st : PathsStore)
    (options : PathSecurityOptions) : SecurityProfileBuilder × PathsStore :=
  ({ b with pathsRef := .fresh (mergePathOptions (st.deref b.pathsRef) options) }, st)

/-- SecurityProfileBuilder.restrictPathsTo: `this.config.paths.allowedBaseDirs
= directories` writes through the current reference. -/
def SecurityProfileBuilder.restrictPathsTo (b : SecurityProfileBuilder) (st : PathsStore)
    (directories : List String) : SecurityProfileBuilder × PathsStore :=
  let w := writePaths st b.pathsRef (fun o => { o with allowedBaseDirs := some directories })
  ({ b with pathsRef := w.1 }, w.2)

/-- SecurityProfileBuilder.allowExtensions: `this.config.paths.allowedExtensions
= extensions` writes through the current reference. -/
def SecurityProfileBuilder.allowExtensions (b : SecurityProfileBuilder) (st : PathsStore)
    (extensions : List String) : SecurityProfileBuilder × PathsStore :=
  let w := writePaths st b.pathsRef (fun o => { o with allowedExtensions := some extensions })
  ({ b with pathsRef := w.1 }, w.2)

/-! ### ProfileManager (same module) -/

/-- One profile-change notification: the listener identity with the
`(profile, config)` pair it was called with. -/
abbrev ListenerCall := Nat × SecurityProfile × SecurityValidationConfig

/-- ProfileManager state: the current pair plus the listener array, with
listeners identified by a token (JavaScript function identity). -/
structure ProfileManager where
  currentProfile : SecurityProfile
  currentConfig : SecurityValidationConfig
  listeners : List Nat

/-- ProfileManager.getConfig (returns a shallow copy of the current config). -/
def ProfileManager.getConfig (pm : ProfileManager) : SecurityValidationConfig :=
  pm.currentConfig

/-- notifyListeners: every registered listener is called synchronously, in
registration order, with the current pair. -/
def ProfileManager.notifyListeners (pm : ProfileManager) : List ListenerCall :=
  pm.listeners.map (fun l => (l, pm.currentProfile, pm.currentConfig))

/-- ProfileManager.switchProfile: install the profile and its config, then
notify; returns the new state and the calls made. -/
def ProfileManager.switchProfile (pm : ProfileManager) (profile : SecurityProfile) :
    ProfileManager × List ListenerCall :=
  let pm' := { pm with currentProfile := profile, currentConfig := getProfileConfig profile }
  (pm', pm'.notifyListeners)

/-- ProfileManager.applyCustomConfig: install 'custom' with the given config,
then notify. -/
def ProfileManager.applyCustomConfig (pm : ProfileManager) (config : SecurityValidationConfig) :
    ProfileManager × List ListenerCall :=
  let pm' := { pm with currentProfile := .custom, currentConfig := config }
  (pm', pm'.notifyListeners)

/-- ProfileManager.onProfileChange: push the listener. -/
def ProfileManager.onProfileChange (pm : ProfileManager) (l : Nat) : ProfileManager :=
  { pm with listeners := pm.listeners ++ [l] }

/-- The unsubscribe closure returned by onProfileChange: `indexOf` the
listener and `splice` it out, i.e. remove the first occurrence by identity
(no-op when absent). -/
def ProfileManager.unsubscribe (pm : ProfileManager) (l : Nat) : ProfileManager :=
  { pm with listeners := pm.listeners.erase l }

/-! ### SecurityAuditLogger (src/security/audit-logger.ts) -/

/-- SecurityEventType (audit-logger.ts). -/
inductive SecurityEventType where
  | VALIDATION_STARTED | VALIDATION_PASSED | VALIDATION_FAILED
  | PATH_BLOCKED | NUMERIC_REJECTED | STRING_REJECTED
  | PROFILE_CHANGED | CONFIG_LOADED | SUSPICIOUS_PATTERN
deriving DecidableEq, Repr

/-- SecuritySeverity. -/
inductive SecuritySeverity where
  | info | warning | error | critical
deriving DecidableEq, Repr

/-- SEVERITY_ORDER (audit-logger.ts lines 65-70). -/
def SEVERITY_ORDER : SecuritySeverity → Nat
  | .info => 0
  | .warning => 1
  | .error => 2
  | .critical => 3

/-- AuditLoggerConfig with the optional correlation-id generator omitted
(never consulted by logEvent). -/
structure AuditLoggerConfig where
  enabled : Bool
  minSeverity : SecuritySeverity
  includeSensitiveDetails : Bool
deriving DecidableEq, Repr

/-- DEFAULT_AUDIT_CONFIG. -/
def DEFAULT_AUDIT_CONFIG : AuditLoggerConfig where
  enabled := true
  minSeverity := .info
  includeSensitiveDetails := false

/-- SecurityAuditEvent: timestamps are modelled as naturals. -/
structure SecurityAuditEvent where
  type : SecurityEventType
  severity : SecuritySeverity
  timestamp : Nat
  source : String
  message : String
  errorCode : Option SecurityErrorCode := none
  correlationId : Option String := none

/-- The argument of logEvent (the event without timestamp/correlationId). -/
structure AuditEventInput where
  type : SecurityEventType
  severity : SecuritySeverity
  source : String
  message : String
  errorCode : Option SecurityErrorCode := none

/-- The level of the underlying logger an event is forwarded at
(info, warning mapped to warn, error and critical mapped to error). -/
inductive ForwardLevel where
  | infoLevel | warnLevel | errorLevel
deriving DecidableEq, Repr

/-- Severity-to-level mapping of the forwarding switch. -/
def forwardLevelOf : SecuritySeverity → ForwardLevel
  | .info => .infoLevel
  | .warning => .warnLevel
  | .error => .errorLevel
  | .critical => .errorLevel

/-- SecurityAuditLogger state: configuration, presence of a sink, the
correlation id and the bounded event buffer. -/
structure SecurityAuditLogger where
  config : AuditLoggerConfig
  hasLogger : Bool
  correlationId : Option String := none
  eventBuffer : List SecurityAuditEvent := []

/-- The fixed buffer capacity (`maxBufferSize = 100`). -/
def maxBufferSize : Nat := 100

/-- The full-event completion step at the top of logEvent: add the timestamp
and the logger's current correlation id. -/
def SecurityAuditLogger.mkFullEvent (lg : SecurityAuditLogger) (event : AuditEventInput)
    (now : Nat) : SecurityAuditEvent where
  type := event.type
  severity := event.severity
  timestamp := now
  source := event.source
  message := event.message
  errorCode := event.errorCode
  correlationId := lg.correlationId

/-- logEvent (audit-logger.ts lines 253-290): bail out when disabled; build
the full event; drop it when its severity is below the configured minimum
(before buffering and before forwarding); push it onto the buffer, shifting
the oldest entry off when the capacity is exceeded; finally forward it to
the sink when one is present.  The forwarded payload is modelled as the
event itself rather than its formatted string. -/
def SecurityAuditLogger.logEvent (lg : SecurityAuditLogger) (event : AuditEventInput)
    (now : Nat) : SecurityAuditLogger × List (ForwardLevel × SecurityAuditEvent) :=
  if !lg.config.enabled then (lg, [])
  else
    let fullEvent : SecurityAuditEvent := lg.mkFullEvent event now
    if SEVERITY_ORDER event.severity < SEVERITY_ORDER lg.config.minSeverity then (lg, [])
    else
      let buf1 := lg.eventBuffer ++ [fullEvent]
      let buf2 := if buf1.length > maxBufferSize then buf1.tail else buf1
      ({ lg with eventBuffer := buf2 },
       if lg.hasLogger then [(forwardLevelOf event.severity, fullEvent)] else [])

/-! ### Derived definitions used by the claim statements -/

/-- Every field of a path policy is defined. -/
def PathSecurityOptions.fullyPopulated (p : PathSecurityOptions) : Bool :=
  p.allowedBaseDirs.isSome && p.maxPathLength.isSome && p.allowedExtensions.isSome &&
  p.allowHiddenFiles.isSome && p.validateSymlinks.isSome && p.allowAbsolutePaths.isSome

/-- Every field of a numeric policy is defined. -/
def NumericSecurityOptions.fullyPopulated (n : NumericSecurityOptions) : Bool :=
  n.requireBounds.isSome && n.defaultMin.isSome && n.defaultMax.isSome &&
  n.allowNaN.isSome && n.allowInfinity.isSome

/-- Every field of a string policy is defined. -/
def StringSecurityOptions.fullyPopulated (s : StringSecurityOptions) : Bool :=
  s.maxLength.isSome && s.allowNullBytes.isSome && s.allowControlChars.isSome

/-- Every policy field of a config is defined. -/
def SecurityValidationConfig.fullyPopulated (c : SecurityValidationConfig) : Bool :=
  c.paths.fullyPopulated && c.numbers.fullyPopulated && c.strings.fullyPopulated

/-- Every policy field except the four the production literal omits
(allowedBaseDirs, allowedExtensions, defaultMin, defaultMax) is defined. -/
def SecurityValidationConfig.populatedExceptProductionGaps (c : SecurityValidationConfig) : Bool :=
  c.paths.maxPathLength.isSome && c.paths.allowHiddenFiles.isSome &&
  c.paths.validateSymlinks.isSome && c.paths.allowAbsolutePaths.isSome &&
  c.numbers.requireBounds.isSome && c.numbers.allowNaN.isSome &&
  c.numbers.allowInfinity.isSome && c.strings.fullyPopulated

/-- Number of NumericGuard constraints a parsed number violates, one term per
check of the source (NaN, infinity, integer-ness, lower bound, upper bound). -/
def numericViolations (g : NumericGuard) (bounds : NumericBounds) (num : JSNum) : Nat :=
  (if num.isNaNB && !g.allowNaN then 1 else 0) +
  (if !num.isFiniteB && !g.allowInfinity then 1 else 0) +
  (if bounds.integer && !num.isIntegerB && num.isFiniteB then 1 else 0) +
  (if num.ltB bounds.min then 1 else 0) +
  (if num.gtB bounds.max then 1 else 0)

/-- Number of StringGuard constraints a string violates, one term per check of
the source (null byte, control characters, ANSI escapes, shell
metacharacters, maximum length, minimum length, pattern, allowed values),
evaluated on the possibly-trimmed string. -/
def stringViolations (g : StringGuard) (cons : StringConstraints) (str : JStr) : Nat :=
  (if !g.allowNullBytes && str.any isNullByte then 1 else 0) +
  (if !g.allowControlChars && str.any isControlCharDanger then 1 else 0) +
  (if containsAnsiEscape str then 1 else 0) +
  (if cons.blockShellMeta && str.any isShellMetaChar then 1 else 0) +
  (if str.length > cons.maxLength.getD g.maxLength then 1 else 0) +
  (match cons.minLength with
   | some m => if str.length < m then 1 else 0
   | none => 0) +
  (match cons.pattern with
   | some p => if !p str then 1 else 0
   | none => 0) +
  (match cons.allowedValues with
   | some vs => if !vs.contains str then 1 else 0
   | none => 0)

/-- Decimal digit characters of a natural number, most significant first. -/
def natDigits (n : Nat) : List Char :=
  if n < 10 then [Char.ofNat (48 + n)]
  else natDigits (n / 10) ++ [Char.ofNat (48 + n % 10)]
termination_by n
decreasing_by
  exact Nat.div_lt_self (by omega) (by omega)

/-- JavaScript `String(n)` for an integer-valued number. -/
def renderInt (n : Int) : JStr :=
  if n < 0 then Char.ofNat 45 :: natDigits n.natAbs else natDigits n.toNat

/-- The rational 3.5 (written with an explicit numerator and denominator:
the kernel cannot evaluate rational division). -/
def ratThreePointFive : Rat := ⟨7, 2, by decide, by decide⟩

/-- The rational 0.5. -/
def ratOneHalf : Rat := ⟨1, 2, by decide, by decide⟩

/-! ### Helper lemmas -/

/-- A key-wise spread keeps a defined base key defined. -/
theorem oMerge_some_isSome {α : Type} (a : α) (u : Option α) :
    (oMerge (some a) u).isSome = true := by
  cases u <;> rfl

/-- A key-wise spread over an absent base key yields the user key. -/
theorem oMerge_none {α : Type} (u : Option α) : oMerge none u = u := by
  cases u <;> rfl

/-! ### C1 — policies fully populated after merging -/

/-- C1 counterexample: the claim states that for every profile and every
override, the merged SecurityValidationConfig handed to the guards has every
policy field defined.  For the production profile with the minimal override
`{profile: 'production'}` (and equally for an empty override merged onto the
production base) the merged config leaves `paths.allowedBaseDirs`,
`paths.allowedExtensions`, `numbers.defaultMin` and `numbers.defaultMax`
undefined, because the PRODUCTION_SECURITY_CONFIG object literal omits those
keys and the spread-merge cannot invent them. -/
theorem C1_counterexample :
    (SecurityValidator.mkConfig { profile := some .production }).paths.allowedBaseDirs = none ∧
    (SecurityValidator.mkConfig { profile := some .production }).paths.allowedExtensions = none ∧
    (SecurityValidator.mkConfig { profile := some .production }).numbers.defaultMin = none ∧
    (SecurityValidator.mkConfig { profile := some .production }).numbers.defaultMax = none ∧
    (SecurityValidator.mkConfig { profile := some .production }).fullyPopulated = false :=
  ⟨rfl, rfl, rfl, rfl, rfl⟩

/-- C1 (amended): merging any user override onto the development base
produces a fully populated config; merging onto the production base leaves
exactly `paths.allowedBaseDirs`, `paths.allowedExtensions`,
`numbers.defaultMin` and `numbers.defaultMax` equal to whatever the user
override supplied (undefined when it supplied nothing), while every other
policy field is always defined. -/
theorem C1_merge_population (user : SecurityConfigPatch) :
    (mergeSecurityConfig user .development).fullyPopulated = true ∧
    (mergeSecurityConfig user .production).paths.allowedBaseDirs =
      ((user.paths).getD {}).allowedBaseDirs ∧
    (mergeSecurityConfig user .production).paths.allowedExtensions =
      ((user.paths).getD {}).allowedExtensions ∧
    (mergeSecurityConfig user .production).numbers.defaultMin =
      ((user.numbers).getD {}).defaultMin ∧
    (mergeSecurityConfig user .production).numbers.defaultMax =
      ((user.numbers).getD {}).defaultMax ∧
    (mergeSecurityConfig user .production).populatedExceptProductionGaps = true := by
  refine ⟨?_, ?_, ?_, ?_, ?_, ?_⟩ <;>
    simp [mergeSecurityConfig, getSecurityConfig,
      DEVELOPMENT_SECURITY_CONFIG, PRODUCTION_SECURITY_CONFIG,
      mergePathOptions, mergeNumericOptions, mergeStringOptions,
      SecurityValidationConfig.fullyPopulated,
      SecurityValidationConfig.populatedExceptProductionGaps,
      PathSecurityOptions.fullyPopulated, NumericSecurityOptions.fullyPopulated,
      StringSecurityOptions.fullyPopulated,
      oMerge_some_isSome, oMerge_none]

/-! ### Characterization of NumericGuard.validate on finite numbers -/

/-- On a finite input the NaN and infinity checks never fire, and the guard
accepts exactly when the integer constraint (when set) and both bounds hold. -/
theorem validateNum_fin_ok_iff (g : NumericGuard) (bounds : NumericBounds) (f : String)
    (q : Rat) :
    (g.validateNum (.fin q) bounds f = .ok (.fin q)) ↔
      ((bounds.integer = true → q.den = 1) ∧ bounds.min ≤ q ∧ q ≤ bounds.max) := by
  simp only [NumericGuard.validateNum, NumericGuard.numErrors, NumericGuard.checkNaN,
    NumericGuard.checkInfinity, NumericGuard.checkInteger, NumericGuard.checkMin,
    NumericGuard.checkMax, JSNum.isNaNB, JSNum.isFiniteB, JSNum.isIntegerB, JSNum.ltB,
    JSNum.gtB, Bool.false_and, Bool.not_true, Bool.and_true, Bool.and_false]
  by_cases hi : (bounds.integer && !(q.den == 1)) = true
  · simp only [hi, if_true, if_false, Bool.false_eq_true]
    rcases Bool.and_eq_true .. |>.mp hi with ⟨h1, h2⟩
    simp only [Bool.not_eq_true', beq_eq_false_iff_ne] at h2
    constructor
    · intro h
      exfalso
      by_cases h4 : decide (q < bounds.min) = true <;>
        by_cases h5 : decide (bounds.max < q) = true <;>
          simp [h4, h5, List.isEmpty] at h
    · rintro ⟨ha, _, _⟩
      exact absurd (ha h1) h2
  · simp only [hi, if_false, Bool.false_eq_true]
    have hi' : (bounds.integer = true → q.den = 1) := by
      intro h1
      by_contra h2
      exact hi (by simp [h1, h2])
    by_cases h4 : q < bounds.min
    · simp only [decide_eq_true_eq, h4, if_true]
      constructor
      · intro h
        by_cases h5 : decide (bounds.max < q) = true <;> simp [h5, List.isEmpty] at h
      · rintro ⟨_, hmin, _⟩
        exact absurd h4 (not_lt.mpr hmin)
    · by_cases h5 : bounds.max < q
      · simp only [decide_eq_true_eq, h4, h5, if_true, if_false]
        constructor
        · intro h
          simp [List.isEmpty] at h
        · rintro ⟨_, _, hmax⟩
          exact absurd h5 (not_lt.mpr hmax)
      · simp only [decide_eq_true_eq, h4, h5, if_false]
        simp only [List.isEmpty, List.nil_append, if_true]
        exact ⟨fun _ => ⟨hi', not_lt.mp h4, not_lt.mp h5⟩, fun _ => trivial⟩

/-- With the default options a NaN input is always rejected. -/
theorem validate_nan_rejected (bounds : NumericBounds) (f : String) :
    isOkE (defaultNumericGuard.validate (.num .nan) bounds f) = false := by
  simp [defaultNumericGuard, NumericGuard.create, NumericGuard.validate,
    NumericGuard.validateNum, NumericGuard.numErrors, NumericGuard.checkNaN,
    NumericGuard.checkInfinity, NumericGuard.checkInteger, NumericGuard.checkMin,
    NumericGuard.checkMax, JSNum.isNaNB, JSNum.isFiniteB, JSNum.isIntegerB,
    JSNum.ltB, JSNum.gtB, List.isEmpty, isOkE]

/-- With the default options an infinite input is always rejected. -/
theorem validate_inf_rejected (bounds : NumericBounds) (f : String) :
    isOkE (defaultNumericGuard.validate (.num .posInf) bounds f) = false ∧
    isOkE (defaultNumericGuard.validate (.num .negInf) bounds f) = false := by
  constructor <;>
    simp [defaultNumericGuard, NumericGuard.create, NumericGuard.validate,
      NumericGuard.validateNum, NumericGuard.numErrors, NumericGuard.checkNaN,
      NumericGuard.checkInfinity, NumericGuard.checkInteger, NumericGuard.checkMin,
      NumericGuard.checkMax, JSNum.isNaNB, JSNum.isFiniteB, JSNum.isIntegerB,
      JSNum.ltB, JSNum.gtB, List.isEmpty, isOkE]

/-! ### Decimal rendering round-trips through parseInt -/

/-- toNat of a digit character built from a digit value. -/
theorem charOfNat_digit_toNat {d : Nat} (h : d < 10) :
    (Char.ofNat (48 + d)).toNat = 48 + d := by
  interval_cases d <;> decide

/-- natDigits is never empty. -/
theorem natDigits_ne_nil (n : Nat) : natDigits n ≠ [] := by
  rw [natDigits]
  split
  · simp
  · simp

/-- Every character natDigits produces is a decimal digit. -/
theorem natDigits_digits (n : Nat) : ∀ c ∈ natDigits n, 48 ≤ c.toNat ∧ c.toNat ≤ 57 := by
  induction n using Nat.strong_induction_on with
  | _ n ih =>
    intro c hc
    rw [natDigits] at hc
    split at hc
    · next h =>
      simp only [List.mem_singleton] at hc
      subst hc
      rw [charOfNat_digit_toNat h]
      omega
    · next h =>
      rcases List.mem_append.mp hc with h1 | h2
      · exact ih (n / 10) (Nat.div_lt_self (by omega) (by omega)) c h1
      · simp only [List.mem_singleton] at h2
        subst h2
        rw [charOfNat_digit_toNat (Nat.mod_lt _ (by omega))]
        have hm : n % 10 < 10 := Nat.mod_lt n (by omega)
        omega

/-- Folding the digit-accumulator over natDigits recovers the number. -/
theorem foldl_natDigits (n : Nat) : ∀ acc : Nat,
    (natDigits n).foldl (fun a c => 10 * a + (c.toNat - 48)) acc =
      acc * 10 ^ (natDigits n).length + n := by
  induction n using Nat.strong_induction_on with
  | _ n ih =>
    intro acc
    rw [natDigits]
    split
    · next h =>
      simp only [List.foldl_cons, List.foldl_nil, List.length_singleton, pow_one,
        charOfNat_digit_toNat h]
      omega
    · next h =>
      rw [List.foldl_append, List.length_append,
        ih (n / 10) (Nat.div_lt_self (by omega) (by omega)) acc]
      simp only [List.foldl_cons, List.foldl_nil, List.length_singleton,
        charOfNat_digit_toNat (Nat.mod_lt _ (show 0 < 10 by omega))]
      have h10 : 10 * (n / 10) + n % 10 = n := Nat.div_add_mod n 10
      have hsub : 48 + n % 10 - 48 = n % 10 := by omega
      rw [hsub, pow_succ]
      generalize (10 : Nat) ^ (natDigits (n / 10)).length = P
      have : 10 * (acc * P + n / 10) + n % 10 = acc * (P * 10) + (10 * (n / 10) + n % 10) := by
        ring
      rw [this, h10]

/-- natOfDigits inverts natDigits. -/
theorem natOfDigits_natDigits (n : Nat) : natOfDigits (natDigits n) = n := by
  unfold natOfDigits
  rw [foldl_natDigits n 0]
  omega

/-- A digit character is not JavaScript whitespace. -/
theorem digit_not_ws {c : Char} (h : 48 ≤ c.toNat) : jsWhitespace c = false := by
  simp only [jsWhitespace, Bool.or_eq_false_iff, beq_eq_false_iff_ne]
  omega

/-- A digit character satisfies isDecDigit. -/
theorem digit_isDecDigit {c : Char} (h1 : 48 ≤ c.toNat) (h2 : c.toNat ≤ 57) :
    isDecDigit c = true := by
  simp only [isDecDigit, Bool.and_eq_true, decide_eq_true_eq]
  omega

/-- takeWhile keeps a list all of whose elements satisfy the predicate. -/
theorem takeWhile_all {α : Type} {p : α → Bool} :
    ∀ {l : List α}, (∀ c ∈ l, p c = true) → l.takeWhile p = l := by
  intro l
  induction l with
  | nil => intro _; rfl
  | cons a rest ih =>
    intro h
    rw [List.takeWhile_cons, h a (by simp)]
    simp [ih (fun c hc => h c (by simp [hc]))]

/-- dropWhile empties a list all of whose elements satisfy the predicate. -/
theorem dropWhile_all {α : Type} {p : α → Bool} :
    ∀ {l : List α}, (∀ c ∈ l, p c = true) → l.dropWhile p = [] := by
  intro l
  induction l with
  | nil => intro _; rfl
  | cons a rest ih =>
    intro h
    rw [List.dropWhile_cons, h a (by simp)]
    simp [ih (fun c hc => h c (by simp [hc]))]

/-- parseInt of a pure digit string is its decimal value. -/
theorem jsParseInt_digits (l : JStr) (hne : l ≠ [])
    (hd : ∀ c ∈ l, 48 ≤ c.toNat ∧ c.toNat ≤ 57) :
    jsParseInt l = .fin (natOfDigits l) := by
  obtain ⟨c, rest, rfl⟩ := List.exists_cons_of_ne_nil hne
  have hc := hd c (by simp)
  have hdig : ∀ x ∈ c :: rest, isDecDigit x = true := by
    intro x hx
    exact digit_isDecDigit (hd x hx).1 (hd x hx).2
  unfold jsParseInt
  rw [List.dropWhile_cons, digit_not_ws hc.1]
  simp only [Bool.false_eq_true, if_false]
  have h45 : (c.toNat == 45) = false := by
    simp only [beq_eq_false_iff_ne]; omega
  have h43 : (c.toNat == 43) = false := by
    simp only [beq_eq_false_iff_ne]; omega
  simp only [splitSign, h45, h43, Bool.false_eq_true, if_false]
  simp only [leadingDigits, takeWhile_all hdig, dropWhile_all hdig]
  simp

/-- parseInt inverts the decimal rendering of any integer. -/
theorem jsParseInt_renderInt (n : Int) : jsParseInt (renderInt n) = .fin (n : Rat) := by
  unfold renderInt
  by_cases hn : n < 0
  · simp only [hn, if_true]
    unfold jsParseInt
    have h45 : (Char.ofNat 45).toNat = 45 := by decide
    rw [List.dropWhile_cons]
    have hws : jsWhitespace (Char.ofNat 45) = false := by decide
    rw [hws]
    simp only [Bool.false_eq_true, if_false, splitSign, h45, beq_self_eq_true, if_true]
    have hdig : ∀ x ∈ natDigits n.natAbs, isDecDigit x = true := by
      intro x hx
      exact digit_isDecDigit (natDigits_digits _ x hx).1 (natDigits_digits _ x hx).2
    simp only [leadingDigits, takeWhile_all hdig, dropWhile_all hdig]
    have hne := natDigits_ne_nil n.natAbs
    simp only [List.isEmpty_iff, hne, if_false]
    rw [natOfDigits_natDigits]
    have h1 : (n.natAbs : Int) = -n := Int.ofNat_natAbs_of_nonpos (le_of_lt hn)
    have habs : ((n.natAbs : Nat) : Rat) = -(n : Rat) := by
      have h2 : (((n.natAbs : Nat) : Int) : Rat) = ((n.natAbs : Nat) : Rat) :=
        Int.cast_natCast n.natAbs
      rw [← h2, h1, Int.cast_neg]
    simp [habs]
  · simp only [hn, if_false]
    rw [jsParseInt_digits _ (natDigits_ne_nil _) (natDigits_digits _),
      natOfDigits_natDigits]
    have : ((n.toNat : Int) : Rat) = (n : Rat) := by
      rw [Int.toNat_of_nonneg (not_lt.mp hn)]
    push_cast at this
    simp [this]

/-! ### C2 — bounds totality and string/number input equivalence -/

/-- C2 counterexample: under the integer bounds `{min: 0, max: 10, integer:
true}` the number `3.5` is rejected (integer violation) while the string
`"3.5"`, the string form of the same value, is parsed with `parseInt` — which
truncates at the decimal point — and accepted as `3`.  String and number
forms of the same value therefore do not behave identically. -/
theorem C2_counterexample :
    isOkE (defaultNumericGuard.validate (.num (.fin ratThreePointFive))
      { min := 0, max := 10, integer := true } "value") = false ∧
    defaultNumericGuard.validate (.str ['3', '.', '5'])
      { min := 0, max := 10, integer := true } "value" = .ok (.fin 3) := by
  constructor
  · rfl
  · rfl

/-- C2 (amended): with the default options and bounds `min ≤ max`,
NumericGuard.validate accepts a finite non-NaN number input exactly when it
lies in the closed interval, returning it unchanged, and rejects NaN and the
infinities; a string input under integer bounds goes through `parseInt`, so
the decimal string form of an integer behaves exactly like the number, while
a fractional string form is truncated (see the counterexample). -/
theorem C2_bounds_totality (mn mx : Rat) (f : String) (hb : mn ≤ mx) :
    (∀ q : Rat,
      (defaultNumericGuard.validate (.num (.fin q)) { min := mn, max := mx } f =
        .ok (.fin q)) ↔ (mn ≤ q ∧ q ≤ mx)) ∧
    isOkE (defaultNumericGuard.validate (.num .nan) { min := mn, max := mx } f) = false ∧
    isOkE (defaultNumericGuard.validate (.num .posInf) { min := mn, max := mx } f) = false ∧
    isOkE (defaultNumericGuard.validate (.num .negInf) { min := mn, max := mx } f) = false ∧
    (∀ n : Int,
      defaultNumericGuard.validate (.str (renderInt n))
        { min := mn, max := mx, integer := true } f =
      defaultNumericGuard.validate (.num (.fin (n : Rat)))
        { min := mn, max := mx, integer := true } f) := by
  refine ⟨?_, validate_nan_rejected _ f, (validate_inf_rejected _ f).1,
    (validate_inf_rejected _ f).2, ?_⟩
  · intro q
    have h := validateNum_fin_ok_iff defaultNumericGuard { min := mn, max := mx } f q
    simp only [NumericGuard.validate]
    rw [h]
    constructor
    · rintro ⟨_, h1, h2⟩
      exact ⟨h1, h2⟩
    · rintro ⟨h1, h2⟩
      exact ⟨(by intro hfalse; cases hfalse), h1, h2⟩
  · intro n
    simp [NumericGuard.validate, jsParseInt_renderInt n]

/-- C2 witness: the amended theorem applied at bounds `[0, 10]`, checking
acceptance of `7`, rejection of `11`, and the string/number agreement at
`42` under integer bounds. -/
theorem C2_bounds_totality_witness :
    (defaultNumericGuard.validate (.num (.fin 7)) { min := 0, max := 10 } "value" =
      .ok (.fin 7)) ∧
    ¬(defaultNumericGuard.validate (.num (.fin 11)) { min := 0, max := 10 } "value" =
      .ok (.fin 11)) ∧
    defaultNumericGuard.validate (.str (renderInt 42))
      { min := 0, max := 100, integer := true } "value" =
    defaultNumericGuard.validate (.num (.fin (42 : Int)))
      { min := 0, max := 100, integer := true } "value" := by
  refine ⟨?_, ?_, ?_⟩
  · exact ((C2_bounds_totality 0 10 "value" (by norm_num)).1 7).mpr (by norm_num)
  · intro h
    have := ((C2_bounds_totality 0 10 "value" (by norm_num)).1 11).mp h
    norm_num at this
  · exact (C2_bounds_totality 0 100 "value" (by norm_num)).2.2.2.2 42

/-! ### C4 — validateRange preset table -/

/-- C4 counterexample: the claim states that `validateRange(v, 'timeout')`
rejects every non-integer finite number in `[0, 300000]`; the source's
integer-preset list is `['port', 'retries', 'concurrency', 'maxTokens',
'lineCount']`, which omits 'timeout', so `0.5` is accepted. -/
theorem C4_counterexample :
    defaultNumericGuard.validateRange (.num (.fin ratOneHalf)) .timeout none =
      .ok (.fin ratOneHalf) := by
  rfl

/-- C4 (amended): validateRange applies exactly the table bounds of its
preset and enforces the integer constraint exactly for port, retries,
concurrency, maxTokens and lineCount; in particular timeout carries no
integer constraint, so any finite number in `[0, 300000]` is accepted. -/
theorem C4_validateRange_char (g : NumericGuard) (r : SafeRangeName) (q : Rat)
    (fieldName : Option String) :
    (g.validateRange (.num (.fin q)) r fieldName = .ok (.fin q)) ↔
      ((SAFE_RANGES r).1 ≤ q ∧ q ≤ (SAFE_RANGES r).2 ∧
        (r ∈ integerRangeNames → q.den = 1)) := by
  simp only [NumericGuard.validateRange, NumericGuard.validate]
  rw [validateNum_fin_ok_iff]
  simp only [decide_eq_true_eq]
  tauto

/-- C4 witness: the characterization applied at concrete presets — 8080 is a
valid port, 0.5 is a valid timeout (no integer constraint), 0.5 is not a
valid concurrency (integer required). -/
theorem C4_validateRange_char_witness :
    (defaultNumericGuard.validateRange (.num (.fin 8080)) .port none = .ok (.fin 8080)) ∧
    (defaultNumericGuard.validateRange (.num (.fin ratOneHalf)) .timeout none =
      .ok (.fin ratOneHalf)) ∧
    ¬(defaultNumericGuard.validateRange (.num (.fin ratOneHalf)) .concurrency none =
      .ok (.fin ratOneHalf)) := by
  refine ⟨?_, ?_, ?_⟩
  · exact (C4_validateRange_char defaultNumericGuard .port 8080 none).mpr
      (by refine ⟨by norm_num [SAFE_RANGES], by norm_num [SAFE_RANGES], ?_⟩
          intro _; norm_num)
  · exact (C4_validateRange_char defaultNumericGuard .timeout ratOneHalf none).mpr
      (by refine ⟨?_, ?_, ?_⟩
          · show (SAFE_RANGES .timeout).1 ≤ ratOneHalf
            rw [show (SAFE_RANGES SafeRangeName.timeout).1 = 0 from rfl]
            decide
          · show ratOneHalf ≤ (SAFE_RANGES .timeout).2
            rw [show (SAFE_RANGES SafeRangeName.timeout).2 = 300000 from rfl]
            decide
          · intro hmem; simp [integerRangeNames] at hmem)
  · intro h
    have := (C4_validateRange_char defaultNumericGuard .concurrency ratOneHalf none).mp h
    have hden := this.2.2 (by simp [integerRangeNames])
    revert hden
    decide

/-! ### C5 — accumulation, not short-circuit -/

/-- The numeric error array has exactly one entry per violated check. -/
theorem numErrors_length (g : NumericGuard) (bounds : NumericBounds) (f : String)
    (x : JSNum) :
    (g.numErrors x bounds f).length = numericViolations g bounds x := by
  simp only [NumericGuard.numErrors, NumericGuard.checkNaN, NumericGuard.checkInfinity,
    NumericGuard.checkInteger, NumericGuard.checkMin, NumericGuard.checkMax,
    numericViolations, List.length_append, apply_ite List.length,
    List.length_singleton, List.length_nil]

/-- The string error array has exactly one entry per violated check. -/
theorem strErrors_length (g : StringGuard) (cons : StringConstraints) (f : String)
    (str : JStr) :
    (StringGuard.strErrors g cons str f).length = stringViolations g cons str := by
  simp only [StringGuard.strErrors, StringGuard.checkNullBytes,
    StringGuard.checkControlChars, StringGuard.checkAnsi, StringGuard.checkShellMeta,
    StringGuard.checkMaxLength, StringGuard.checkMinLength, StringGuard.checkPattern,
    StringGuard.checkAllowedValues, stringViolations, List.length_append]
  cases cons.minLength <;> cases cons.pattern <;> cases cons.allowedValues <;>
    simp [apply_ite List.length]

/-- C5: both guards accumulate every violation of a single value before
throwing: the thrown error list of NumericGuard.validate on a number input
has exactly one entry per violated constraint (NaN, infinity, integer-ness,
lower bound, upper bound — so at least N entries for N violations), and the
list of StringGuard.validate on a string input has one entry per violated
constraint (null byte, control characters, ANSI escapes, shell
metacharacters, maximum length, minimum length, pattern, allowed values);
each guard succeeds exactly when no constraint is violated. -/
theorem C5_accumulation :
    (∀ (g : NumericGuard) (bounds : NumericBounds) (f : String) (x : JSNum),
      errCount (g.validate (.num x) bounds f) = numericViolations g bounds x ∧
      isOkE (g.validate (.num x) bounds f) = (numericViolations g bounds x == 0)) ∧
    (∀ (g : StringGuard) (cons : StringConstraints) (f : String) (s : JStr),
      errCount (g.validate (.str s) cons f) =
        stringViolations g cons (if cons.trim then jsTrim s else s) ∧
      isOkE (g.validate (.str s) cons f) =
        (stringViolations g cons (if cons.trim then jsTrim s else s) == 0)) := by
  constructor
  · intro g bounds f x
    simp only [NumericGuard.validate, NumericGuard.validateNum]
    by_cases he : (g.numErrors x bounds f).isEmpty = true
    · have h0 : (g.numErrors x bounds f).length = 0 := by
        rw [List.isEmpty_iff] at he
        simp [he]
      rw [← numErrors_length g bounds f x, h0]
      simp [he, errCount, isOkE]
    · have h0 : (g.numErrors x bounds f).length ≠ 0 := by
        intro hc
        exact he (by simpa [List.isEmpty_iff, List.length_eq_zero] using hc)
      rw [← numErrors_length g bounds f x]
      simp only [he, Bool.false_eq_true, if_false, errCount, isOkE]
      refine ⟨trivial, ?_⟩
      cases hl : ((g.numErrors x bounds f).length == 0) with
      | false => rfl
      | true => exact absurd (by simpa using hl) h0
  · intro g cons f s
    simp only [StringGuard.validate]
    by_cases he : (StringGuard.strErrors g cons (if cons.trim then jsTrim s else s) f).isEmpty = true
    · have h0 : (StringGuard.strErrors g cons (if cons.trim then jsTrim s else s) f).length = 0 := by
        rw [List.isEmpty_iff] at he
        simp [he]
      rw [← strErrors_length g cons f (if cons.trim then jsTrim s else s), h0]
      simp [he, errCount, isOkE]
    · have h0 : (StringGuard.strErrors g cons (if cons.trim then jsTrim s else s) f).length ≠ 0 := by
        intro hc
        exact he (by simpa [List.isEmpty_iff, List.length_eq_zero] using hc)
      rw [← strErrors_length g cons f (if cons.trim then jsTrim s else s)]
      simp only [he, Bool.false_eq_true, if_false, errCount, isOkE]
      refine ⟨trivial, ?_⟩
      cases hl : ((StringGuard.strErrors g cons (if cons.trim then jsTrim s else s) f).length == 0) with
      | false => rfl
      | true => exact absurd (by simpa using hl) h0

/-! ### C6 — unsupported runtime types -/

/-- C6 counterexample: the claim states that a non-string value passed as a
'path' to SecurityValidator.validateValue reports a validation error; in the
source the path branch is guarded by `typeof value === 'string'` with no else
branch, so validateValue returns without reporting anything — it silently
succeeds (here with a path guard that would accept, and the same for any
path-guard function). -/
theorem C6_counterexample :
    SecurityValidator.validateValue (fun s _ => .ok s) defaultNumericGuard
      defaultStringGuard (.bool true) .path {} = .ok () := by
  rfl

/-- C6 (amended): NumericGuard.validate and StringGuard.validate turn an
input of unsupported runtime type into a single thrown VALIDATION_FAILED
error (never a crash or silent success); SecurityValidator.validateValue,
however, performs no validation at all for a non-string 'path' value (and
for type 'number' without bounds), returning silently. -/
theorem C6_type_errors :
    (∀ (g : NumericGuard) (bounds : NumericBounds) (f : String) (v : JSValue),
      v.isNumOrStr = false →
      ∃ e, g.validate v bounds f = .error [e] ∧ e.code = .VALIDATION_FAILED) ∧
    (∀ (g : StringGuard) (cons : StringConstraints) (f : String) (v : JSValue),
      v.isStr = false →
      ∃ e, g.validate v cons f = .error [e] ∧ e.code = .VALIDATION_FAILED) ∧
    (∀ (pathFn : JStr → String → Except (List SecurityValidationError) JStr)
       (ng : NumericGuard) (sg : StringGuard) (opts : ValidateValueOptions) (v : JSValue),
      v.isStr = false →
      SecurityValidator.validateValue pathFn ng sg v .path opts = .ok ()) ∧
    (∀ (pathFn : JStr → String → Except (List SecurityValidationError) JStr)
       (ng : NumericGuard) (sg : StringGuard) (opts : ValidateValueOptions) (v : JSValue),
      opts.bounds = none →
      SecurityValidator.validateValue pathFn ng sg v .number opts = .ok ()) := by
  refine ⟨?_, ?_, ?_, ?_⟩
  · intro g bounds f v hv
    cases v <;> simp [JSValue.isNumOrStr] at hv ⊢ <;>
      exact ⟨_, rfl, rfl⟩
  · intro g cons f v hv
    cases v <;> simp [JSValue.isStr] at hv ⊢ <;>
      exact ⟨_, rfl, rfl⟩
  · intro pathFn ng sg opts v hv
    cases v <;> simp [JSValue.isStr] at hv ⊢ <;>
      rfl
  · intro pathFn ng sg opts v hb
    simp [SecurityValidator.validateValue, hb]

/-- C6 witness: the amended theorem applied to a boolean fed to each guard
and to validateValue's path case. -/
theorem C6_type_errors_witness :
    (∃ e, defaultNumericGuard.validate (.bool true) { min := 0, max := 10 } "value" =
      .error [e] ∧ e.code = .VALIDATION_FAILED) ∧
    (∃ e, defaultStringGuard.validate (.num (.fin 3)) {} "value" =
      .error [e] ∧ e.code = .VALIDATION_FAILED) ∧
    SecurityValidator.validateValue (fun s _ => .ok s) defaultNumericGuard
      defaultStringGuard (.num (.fin 3)) .path {} = .ok () := by
  refine ⟨?_, ?_, ?_⟩
  · exact C6_type_errors.1 defaultNumericGuard { min := 0, max := 10 } "value"
      (.bool true) rfl
  · exact C6_type_errors.2.1 defaultStringGuard {} "value" (.num (.fin 3)) rfl
  · exact C6_type_errors.2.2.1 (fun s _ => .ok s) defaultNumericGuard
      defaultStringGuard {} (.num (.fin 3)) rfl

/-! ### C3 — the valid flag and profile symmetry -/

/-- C3: every aggregated result of validateMerged satisfies
`valid = (errors.isEmpty || not failOnError)`, the spec-modelled per-source
results satisfy the same invariant by construction, and for a fixed invalid
input (any sub-result carrying at least one error) a validator constructed
for the development profile reports valid with the errors still present,
while one constructed for the production profile reports invalid. -/
theorem C3_valid_invariant :
    (∀ (cfg : SecurityValidationConfig) (cliR confR : SecurityValidationResult)
       (merged : List (String × JTree)),
      (SecurityValidator.validateMerged cfg cliR confR merged).valid =
        ((SecurityValidator.validateMerged cfg cliR confR merged).errors.isEmpty ||
          !cfg.failOnError)) ∧
    (∀ (fOE : Bool) (errs : List SecurityValidationError)
       (warns : List SecurityValidationWarning) (src : ErrSource),
      (mkValidationResult fOE errs warns src).valid = (errs.isEmpty || !fOE)) ∧
    (∀ (cliR confR : SecurityValidationResult) (merged : List (String × JTree)),
      cliR.errors ≠ [] →
      ((SecurityValidator.validateMerged
          (SecurityValidator.mkConfig { profile := some .development })
          cliR confR merged).valid = true ∧
        (SecurityValidator.validateMerged
          (SecurityValidator.mkConfig { profile := some .development })
          cliR confR merged).errors ≠ [] ∧
        (SecurityValidator.validateMerged
          (SecurityValidator.mkConfig { profile := some .production })
          cliR confR merged).valid = false)) := by
  refine ⟨?_, ?_, ?_⟩
  · intro cfg cliR confR merged
    rfl
  · intro fOE errs warns src
    rfl
  · intro cliR confR merged hne
    obtain ⟨e, rest, hr⟩ := List.exists_cons_of_ne_nil hne
    have hdev : (SecurityValidator.mkConfig { profile := some .development }).failOnError =
        false := rfl
    have hprod : (SecurityValidator.mkConfig { profile := some .production }).failOnError =
        true := rfl
    refine ⟨?_, ?_, ?_⟩
    · simp [SecurityValidator.validateMerged, hdev]
    · simp [SecurityValidator.validateMerged, validateCrossSources, hr]
    · simp [SecurityValidator.validateMerged, validateCrossSources, hprod, hr,
        List.isEmpty]

/-- C3 witness: the invariant and the symmetry at a concrete erroneous
sub-result. -/
theorem C3_valid_invariant_witness :
    (SecurityValidator.validateMerged
      (SecurityValidator.mkConfig { profile := some .development })
      { valid := false
        errors := [{ field := "port", message := "port must be at least 1, received 0",
                     code := .NUMBER_OUT_OF_RANGE, source := .cli }]
        warnings := [], source := .cli }
      { valid := true, errors := [], warnings := [], source := .config } []).valid = true ∧
    (SecurityValidator.validateMerged
      (SecurityValidator.mkConfig { profile := some .production })
      { valid := false
        errors := [{ field := "port", message := "port must be at least 1, received 0",
                     code := .NUMBER_OUT_OF_RANGE, source := .cli }]
        warnings := [], source := .cli }
      { valid := true, errors := [], warnings := [], source := .config } []).valid = false := by
  have h := C3_valid_invariant.2.2
    { valid := false
      errors := [{ field := "port", message := "port must be at least 1, received 0",
                   code := .NUMBER_OUT_OF_RANGE, source := .cli }]
      warnings := [], source := .cli }
    { valid := true, errors := [], warnings := [], source := .config } []
    (by simp)
  exact ⟨h.1, h.2.2⟩

/-! ### C7 — ProfileManager -/

/-- Filtering the notification list for one listener identity counts its
registrations. -/
theorem filter_calls_count (L : List Nat) (l : Nat) (p : SecurityProfile)
    (cfg : SecurityValidationConfig) :
    ((L.map (fun x => ((x, p, cfg) : ListenerCall))).filter
      (fun c => c.1 == l)).length = L.count l := by
  induction L with
  | nil => rfl
  | cons a rest ih =>
    by_cases ha : a = l
    · subst ha
      simp [List.count_cons, ih]
    · simp only [List.map_cons, List.filter_cons]
      have : (((a, p, cfg) : ListenerCall).1 == l) = false := by
        simp [ha]
      simp [this, ih, List.count_cons, ha]

/-- C7: after switchProfile('production') the manager's config has
failOnError true; every change call notifies each registered listener
synchronously, in order, exactly once per registration, with the new
(profile, config) pair; and unsubscribing a listener registered once removes
it so it is never invoked afterwards. -/
theorem C7_profile_manager :
    (∀ pm : ProfileManager,
      ((pm.switchProfile .production).1.getConfig).failOnError = true) ∧
    (∀ (pm : ProfileManager) (p : SecurityProfile),
      (pm.switchProfile p).2 =
        pm.listeners.map (fun l => (l, p, getProfileConfig p))) ∧
    (∀ (pm : ProfileManager) (cfg : SecurityValidationConfig),
      (pm.applyCustomConfig cfg).2 =
        pm.listeners.map (fun l => (l, SecurityProfile.custom, cfg))) ∧
    (∀ (pm : ProfileManager) (p : SecurityProfile) (l : Nat),
      pm.listeners.count l = 1 →
      ((pm.switchProfile p).2.filter (fun c => c.1 == l)).length = 1) ∧
    (∀ (pm : ProfileManager) (p : SecurityProfile) (l : Nat),
      pm.listeners.count l ≤ 1 →
      ((pm.unsubscribe l).switchProfile p).2.filter (fun c => c.1 == l) = []) ∧
    (∀ (pm : ProfileManager) (l : Nat),
      ((pm.onProfileChange l).unsubscribe l).listeners = pm.listeners ∨
      l ∈ pm.listeners) := by
  refine ⟨?_, ?_, ?_, ?_, ?_, ?_⟩
  · intro pm
    rfl
  · intro pm p
    rfl
  · intro pm cfg
    rfl
  · intro pm p l hc
    rw [show (pm.switchProfile p).2 =
      pm.listeners.map (fun x => (x, p, getProfileConfig p)) from rfl]
    rw [filter_calls_count, hc]
  · intro pm p l hc
    rw [show ((pm.unsubscribe l).switchProfile p).2 =
      (pm.listeners.erase l).map (fun x => (x, p, getProfileConfig p)) from rfl]
    have h0 : (pm.listeners.erase l).count l = 0 := by
      rw [List.count_erase_self]
      omega
    have := filter_calls_count (pm.listeners.erase l) l p (getProfileConfig p)
    rw [h0] at this
    exact List.length_eq_zero.mp this
  · intro pm l
    by_cases hm : l ∈ pm.listeners
    · exact Or.inr hm
    · left
      show (pm.listeners ++ [l]).erase l = pm.listeners
      rw [List.erase_append_right _ hm]
      simp

/-- C7 witness: a manager with one registered listener — switching to
production yields failOnError true and exactly one notification of that
listener; after unsubscribing, no notification reaches it. -/
theorem C7_profile_manager_witness :
    ((ProfileManager.switchProfile
      ⟨.development, DEVELOPMENT_SECURITY_CONFIG, [7]⟩ .production).1.getConfig).failOnError
      = true ∧
    ((ProfileManager.switchProfile
      ⟨.development, DEVELOPMENT_SECURITY_CONFIG, [7]⟩ .production).2.filter
        (fun c => c.1 == 7)).length = 1 ∧
    ((ProfileManager.unsubscribe
      ⟨.development, DEVELOPMENT_SECURITY_CONFIG, [7]⟩ 7).switchProfile .production).2.filter
        (fun c => c.1 == 7) = [] := by
  refine ⟨?_, ?_, ?_⟩
  · exact C7_profile_manager.1 ⟨.development, DEVELOPMENT_SECURITY_CONFIG, [7]⟩
  · exact C7_profile_manager.2.2.2.1 ⟨.development, DEVELOPMENT_SECURITY_CONFIG, [7]⟩
      .production 7 (by decide)
  · exact C7_profile_manager.2.2.2.2.1 ⟨.development, DEVELOPMENT_SECURITY_CONFIG, [7]⟩
      .production 7 (by decide)

/-! ### C8 — audit buffer: severity filter and bounded FIFO -/

/-- One logEvent step never grows the buffer beyond the capacity. -/
theorem logEvent_length_le (lg : SecurityAuditLogger) (ev : AuditEventInput) (t : Nat)
    (h : lg.eventBuffer.length ≤ maxBufferSize) :
    (lg.logEvent ev t).1.eventBuffer.length ≤ maxBufferSize := by
  unfold SecurityAuditLogger.logEvent
  by_cases he : lg.config.enabled = true
  · simp only [he, Bool.not_true, Bool.false_eq_true, if_false]
    by_cases hs : SEVERITY_ORDER ev.severity < SEVERITY_ORDER lg.config.minSeverity
    · simp [hs, h]
    · simp only [hs, if_false]
      cases hb : lg.eventBuffer with
      | nil =>
        simp [maxBufferSize]
      | cons a rest =>
        rw [hb] at h
        split
        · next hgt =>
          simp only [List.cons_append, List.length_cons, List.length_append,
            List.length_singleton, List.length_nil, List.tail_cons] at hgt ⊢
          simp only [List.length_cons] at h
          omega
        · next hle =>
          simp only [gt_iff_lt, not_lt] at hle
          simpa using hle
  · simp [he, h]

/-- C8: an event below the configured minimum severity is dropped before
buffering and before forwarding; the buffer never exceeds 100 events (one
step preserves the bound, and any event sequence logged from an empty buffer
stays within it); and when an event is buffered while the buffer already
holds 100 events, the oldest event is the one evicted. -/
theorem C8_audit_buffer :
    (∀ (lg : SecurityAuditLogger) (ev : AuditEventInput) (t : Nat),
      SEVERITY_ORDER ev.severity < SEVERITY_ORDER lg.config.minSeverity →
      (lg.logEvent ev t).1.eventBuffer = lg.eventBuffer ∧ (lg.logEvent ev t).2 = []) ∧
    (∀ (lg : SecurityAuditLogger) (ev : AuditEventInput) (t : Nat),
      lg.eventBuffer.length ≤ maxBufferSize →
      (lg.logEvent ev t).1.eventBuffer.length ≤ maxBufferSize) ∧
    (∀ (lg : SecurityAuditLogger) (ev : AuditEventInput) (t : Nat),
      lg.config.enabled = true →
      ¬SEVERITY_ORDER ev.severity < SEVERITY_ORDER lg.config.minSeverity →
      lg.eventBuffer.length = maxBufferSize →
      (lg.logEvent ev t).1.eventBuffer =
        lg.eventBuffer.tail ++ [lg.mkFullEvent ev t]) ∧
    (∀ (evts : List (AuditEventInput × Nat)) (lg : SecurityAuditLogger),
      lg.eventBuffer = [] →
      ((evts.foldl (fun s e => (s.logEvent e.1 e.2).1) lg).eventBuffer).length ≤
        maxBufferSize) := by
  refine ⟨?_, logEvent_length_le, ?_, ?_⟩
  · intro lg ev t hs
    unfold SecurityAuditLogger.logEvent
    by_cases he : lg.config.enabled = true
    · simp [he, hs]
    · simp [he]
  · intro lg ev t he hs hlen
    unfold SecurityAuditLogger.logEvent
    simp only [he, Bool.not_true, Bool.false_eq_true, if_false, hs]
    have hgt : (lg.eventBuffer ++ [lg.mkFullEvent ev t]).length > maxBufferSize := by
      simp [hlen]
    simp only [hgt, if_true]
    cases hb : lg.eventBuffer with
    | nil =>
      rw [hb] at hlen
      simp [maxBufferSize] at hlen
    | cons a rest =>
      simp
  · intro evts
    induction evts with
    | nil =>
      intro lg h0
      simp [h0, maxBufferSize]
    | cons e rest ih =>
      intro lg h0
      simp only [List.foldl_cons]
      have hstep : ((lg.logEvent e.1 e.2).1.eventBuffer).length ≤ maxBufferSize := by
        apply logEvent_length_le
        simp [h0]
      clear ih
      generalize (lg.logEvent e.1 e.2).1 = lg1 at hstep
      induction rest generalizing lg1 with
      | nil => simpa using hstep
      | cons e2 rest2 ih2 =>
        simp only [List.foldl_cons]
        exact ih2 _ (logEvent_length_le _ _ _ hstep)

/-- C8 witness: a logger at minimum severity 'warning' drops an 'info' event
untouched; a full buffer of 100 events evicts its oldest entry on the next
accepted event; a three-event burst from empty stays within capacity. -/
theorem C8_audit_buffer_witness :
    ((SecurityAuditLogger.logEvent
        { config := ⟨true, .warning, false⟩, hasLogger := true, correlationId := none
          eventBuffer := [⟨.VALIDATION_PASSED, .info, 0, "cli", "ok", none, none⟩] }
        ⟨.VALIDATION_STARTED, .info, "cli", "start", none⟩ 5).1.eventBuffer =
      [⟨.VALIDATION_PASSED, .info, 0, "cli", "ok", none, none⟩]) ∧
    ((SecurityAuditLogger.logEvent
        { config := ⟨true, .info, false⟩, hasLogger := true, correlationId := none
          eventBuffer :=
            List.replicate 100 ⟨.VALIDATION_PASSED, .info, 0, "cli", "ok", none, none⟩ }
        ⟨.VALIDATION_FAILED, .error, "cli", "bad", none⟩ 5).1.eventBuffer =
      (List.replicate 100
        (⟨.VALIDATION_PASSED, .info, 0, "cli", "ok", none, none⟩ :
          SecurityAuditEvent)).tail ++
        [⟨.VALIDATION_FAILED, .error, 5, "cli", "bad", none, none⟩]) ∧
    ((([(⟨.VALIDATION_STARTED, .info, "cli", "a", none⟩, 1),
        (⟨.VALIDATION_PASSED, .info, "cli", "b", none⟩, 2),
        (⟨.VALIDATION_FAILED, .error, "cli", "c", none⟩, 3)] :
          List (AuditEventInput × Nat)).foldl
        (fun (s : SecurityAuditLogger) e => (s.logEvent e.1 e.2).1)
        { config := ⟨true, .info, false⟩, hasLogger := true, correlationId := none
          eventBuffer := [] }).eventBuffer.length ≤ maxBufferSize) := by
  refine ⟨?_, ?_, ?_⟩
  · exact (C8_audit_buffer.1
      { config := ⟨true, .warning, false⟩, hasLogger := true, correlationId := none
        eventBuffer := [⟨.VALIDATION_PASSED, .info, 0, "cli", "ok", none, none⟩] }
      ⟨.VALIDATION_STARTED, .info, "cli", "start", none⟩ 5 (by decide)).1
  · exact C8_audit_buffer.2.2.1
      { config := ⟨true, .info, false⟩, hasLogger := true, correlationId := none
        eventBuffer :=
          List.replicate 100 ⟨.VALIDATION_PASSED, .info, 0, "cli", "ok", none, none⟩ }
      ⟨.VALIDATION_FAILED, .error, "cli", "bad", none⟩ 5 rfl (by decide)
      (by simp [maxBufferSize])
  · exact C8_audit_buffer.2.2.2
      ([(⟨.VALIDATION_STARTED, .info, "cli", "a", none⟩, 1),
        (⟨.VALIDATION_PASSED, .info, "cli", "b", none⟩, 2),
        (⟨.VALIDATION_FAILED, .error, "cli", "c", none⟩, 3)] :
          List (AuditEventInput × Nat))
      { config := ⟨true, .info, false⟩, hasLogger := true, correlationId := none
        eventBuffer := [] } rfl

/-! ### C9 — sanitize is safe for display -/

/-- ansiColorStrip leaves a string without ESC characters unchanged. -/
theorem ansiColorStrip_no_esc :
    ∀ l : JStr, (∀ c ∈ l, c.toNat ≠ 27) → ansiColorStrip l = l := by
  intro l
  induction l with
  | nil => intro _; rw [ansiColorStrip]
  | cons c rest ih =>
    intro h
    rw [ansiColorStrip]
    have hc : (c.toNat == 27) = false := by
      simp only [beq_eq_false_iff_ne]
      exact h c (by simp)
    simp only [hc, Bool.false_eq_true, if_false, List.cons.injEq, true_and]
    exact ih (fun x hx => h x (by simp [hx]))

/-- A string without ESC characters contains no ANSI escape start. -/
theorem containsAnsiEscape_no_esc :
    ∀ l : JStr, (∀ c ∈ l, c.toNat ≠ 27) → containsAnsiEscape l = false := by
  intro l
  induction l with
  | nil => intro _; rfl
  | cons c1 rest ih =>
    intro h
    cases rest with
    | nil => rfl
    | cons c2 rest2 =>
      rw [containsAnsiEscape]
      have hc : (c1.toNat == 27) = false := by
        simp only [beq_eq_false_iff_ne]
        exact h c1 (by simp)
      simp only [hc, Bool.false_and, Bool.false_or]
      exact ih (fun x hx => h x (by simp [hx]))

/-- C9: for every input string and every maximum length, sanitize returns a
string with no control character (00-1f, 7f), no ANSI escape sequence, and
length at most maxLength.  (The function is total by construction: the
source has no throw path.) -/
theorem C9_sanitize (s : JStr) (maxLength : Nat) :
    (∀ c ∈ StringGuard.sanitize s maxLength, isControlOrDel c = false) ∧
    (StringGuard.sanitize s maxLength).length ≤ maxLength ∧
    containsAnsiEscape (StringGuard.sanitize s maxLength) = false := by
  have hmem : ∀ c ∈ (s.take maxLength).filter (fun c => !isControlOrDel c),
      isControlOrDel c = false := by
    intro c hc
    have := (List.mem_filter.mp hc).2
    simpa using this
  have hesc : ∀ c ∈ (s.take maxLength).filter (fun c => !isControlOrDel c),
      c.toNat ≠ 27 := by
    intro c hc hn
    have h1 := hmem c hc
    simp [isControlOrDel, hn] at h1
  have hid : StringGuard.sanitize s maxLength =
      (s.take maxLength).filter (fun c => !isControlOrDel c) := by
    unfold StringGuard.sanitize
    exact ansiColorStrip_no_esc _ hesc
  refine ⟨?_, ?_, ?_⟩
  · rw [hid]
    exact hmem
  · rw [hid]
    calc ((s.take maxLength).filter (fun c => !isControlOrDel c)).length
        ≤ (s.take maxLength).length := List.length_filter_le _ _
      _ ≤ maxLength := by
          rw [List.length_take]
          omega
  · rw [hid]
    exact containsAnsiEscape_no_esc _ hesc

/-! ### C10 — the profile builder writes through the shared paths object -/

/-- C10: from any base profile and any store state, restrictPathsTo (and
allowExtensions) on a freshly created builder writes through the shared
nested paths object, so getProfileConfig of the same base profile afterwards
reports exactly the directories (extensions) passed to the builder — the
module-level preset is mutated; withPathSecurity, by contrast, allocates a
replacement object and leaves the store untouched. -/
theorem C10_builder_aliasing (base : BaseProfile) (st : PathsStore)
    (dirs exts : List String) (opts : PathSecurityOptions) :
    ((getProfileConfigAt
        ((SecurityProfileBuilder.create base).restrictPathsTo st dirs).2
        base.toProfile).paths.allowedBaseDirs = some dirs) ∧
    ((getProfileConfigAt
        ((SecurityProfileBuilder.create base).allowExtensions st exts).2
        base.toProfile).paths.allowedExtensions = some exts) ∧
    (((SecurityProfileBuilder.create base).withPathSecurity st opts).2 = st) ∧
    ((getProfileConfigAt
        (((SecurityProfileBuilder.create base).withPathSecurity st opts).2)
        base.toProfile).paths =
      (getProfileConfigAt st base.toProfile).paths) := by
  cases base <;>
    exact ⟨rfl, rfl, rfl, rfl⟩

end Cardigantime
